import Mathlib

set_option linter.unusedVariables false

/-!
Shallow embedding of the lamina Scheme evaluator (src/src/value.rs,
src/src/evaluator/mod.rs, src/src/evaluator/special_forms.rs,
src/src/evaluator/environment.rs, src/src/evaluator/libraries.rs,
src/src/evaluator/library_manager.rs).

Heap-allocated, reference-counted objects (`Rc<RefCell<Environment>>`,
`Rc<RecordType>`, `Rc<Record>`, `Rc<RefCell<Vec<u8>>>`,
`Rc<RefCell<Library>>`) are modelled by addresses (`Nat`) into stores held
in a `State`; `Rc::ptr_eq` becomes address equality.  `HashMap<String, V>`
becomes an association list with insert-or-overwrite semantics (insertion
order is irrelevant to lookup, as in the source).  Rust closures stored in
`Value::Procedure` are defunctionalized into the `Closure` inductive: one
constructor per closure-creation site in the source.  The recursive
evaluator takes a fuel parameter, decremented at every call; exhaustion is
reported as a distinct `timeout` outcome (the Rust original would diverge
or recurse deeper in those runs).
-/

/-- `NumberKind` from src/src/value.rs (Integer(i64), Real(f64),
Rational(i64,i64)); `i64` is modelled as `Int` (no claim exercises
wraparound) and `f64` as `Float`. -/
inductive NumberKind where
  | Integer (i : Int)
  | Real (r : Float)
  | Rational (n d : Int)

/-- The native Rust closures that `import_library_bindings`
(src/src/evaluator/libraries.rs, lines 264-458) installs for the five
hardcoded `(example ...)` library names. -/
inductive NativeFn where
  | square
  | cube
  | lengthFn
  | reverseFn
  | publicFunc
  | derivedFunc
  | baseFunc
deriving DecidableEq

mutual

/-- `Value` from src/src/value.rs.  `Pair`/`Vector` are immutable and
compared structurally in the source, so they are plain trees here;
`Environment`, `RecordType`, `Record`, `Bytevector` and `Library` carry
store addresses. -/
inductive Value where
  | Nil
  | Boolean (b : Bool)
  | Number (n : NumberKind)
  | Character (c : Char)
  | Str (s : String)
  | Symbol (s : String)
  | Pair (car cdr : Value)
  | Vector (xs : List Value)
  | Procedure (c : Closure)
  | Environment (e : Nat)
  | RecordType (rt : Nat)
  | Record (r : Nat)
  | Bytevector (b : Nat)
  | Library (l : Nat)
  | RustFn (c : Closure) (name : String)

/-- Defunctionalized `Rc<dyn Fn(Vec<Value>) -> Result<Value, String>>`.
One constructor per closure-creation site:
`lambdaC` (special_forms.rs line 24), `defineC` (line 118),
`ctorC` (line 726), `predC` (line 760), `accessorC` (line 786),
`mutatorC` (line 821), `native` (libraries.rs hardcoded imports). -/
inductive Closure where
  | lambdaC (params body : Value) (env : Nat)
  | defineC (params body : Value) (env : Nat)
  | ctorC (rt : Nat) (ctorFields : List String) (name : String)
  | predC (typeName predName : String)
  | accessorC (fieldName typeName accessorName : String)
  | mutatorC (fieldName typeName mutatorName : String)
  | native (f : NativeFn)

end

/-- `struct Environment` from src/src/value.rs: parent link (address) and
binding table. -/
structure Environment where
  parent : Option Nat
  bindings : List (String × Value)

/-- `struct RecordType` from src/src/value.rs: name plus
(field name, mutable) list. -/
structure RecordType where
  name : String
  fields : List (String × Bool)

/-- `struct Record` from src/src/value.rs: `type_info: Rc<RecordType>`
(an address here) and the interior-mutable field table. -/
structure Record where
  type_info : Nat
  values : List (String × Value)

/-- `struct Library` from src/src/value.rs. -/
structure Library where
  name : List String
  exports : List String
  imports : List (List String)
  environment : Nat

/-- The mutable heap: one store per reference-counted object kind, plus
the process-wide library registry (`LIBRARIES` in library_manager.rs). -/
structure State where
  envs : List Environment
  rtypes : List RecordType
  records : List Record
  bytevecs : List (List Nat)
  libs : List Library
  registry : List (List String × Nat)

/-- Insert-or-overwrite on an association list: the observable behavior of
`HashMap::insert`. -/
def insertA {β : Type} : List (String × β) → String → β → List (String × β)
  | [], k, v => [(k, v)]
  | (k', v') :: rest, k, v =>
      if k' = k then (k, v) :: rest else (k', v') :: insertA rest k v

/-- `HashMap::get`, cloned. -/
def lookupA {β : Type} : List (String × β) → String → Option β
  | [], _ => none
  | (k', v') :: rest, k => if k' = k then some v' else lookupA rest k

/-- `HashMap::contains_key`. -/
def containsA {β : Type} (m : List (String × β)) (k : String) : Bool :=
  (lookupA m k).isSome

def State.getEnv (st : State) (a : Nat) : Environment :=
  st.envs.getD a ⟨none, []⟩

def State.setEnv (st : State) (a : Nat) (e : Environment) : State :=
  { st with envs := st.envs.set a e }

/-- `Rc::new(RefCell::new(env))`: a fresh address. -/
def State.allocEnv (st : State) (e : Environment) : Nat × State :=
  (st.envs.length, { st with envs := st.envs ++ [e] })

/-- Overwrite one binding of the environment at address `a`
(`env.borrow_mut().bindings.insert(name, v)`). -/
def State.insertBinding (st : State) (a : Nat) (name : String) (v : Value) :
    State :=
  st.setEnv a { st.getEnv a with bindings := insertA (st.getEnv a).bindings name v }

def State.getRT (st : State) (a : Nat) : RecordType :=
  st.rtypes.getD a ⟨"", []⟩

def State.allocRT (st : State) (rt : RecordType) : Nat × State :=
  (st.rtypes.length, { st with rtypes := st.rtypes ++ [rt] })

def State.getRecord (st : State) (a : Nat) : Record :=
  st.records.getD a ⟨0, []⟩

def State.allocRecord (st : State) (r : Record) : Nat × State :=
  (st.records.length, { st with records := st.records ++ [r] })

def State.setRecord (st : State) (a : Nat) (r : Record) : State :=
  { st with records := st.records.set a r }

def State.getLib (st : State) (a : Nat) : Library :=
  st.libs.getD a ⟨[], [], [], 0⟩

def State.allocLib (st : State) (l : Library) : Nat × State :=
  (st.libs.length, { st with libs := st.libs ++ [l] })

/-- `get_library` from library_manager.rs. -/
def State.getLibrary (st : State) (name : List String) : Option Nat :=
  (st.registry.find? (fun p => p.1 = name)).map (·.2)

/-- `register_library` from library_manager.rs (HashMap insert keyed by
the library's name). -/
def State.registerLibrary (st : State) (a : Nat) : State :=
  { st with registry := insertReg st.registry (st.getLib a).name a }
where
  insertReg : List (List String × Nat) → List String → Nat →
      List (List String × Nat)
    | [], k, v => [(k, v)]
    | (k', v') :: rest, k, v =>
        if k' = k then (k, v) :: rest else (k', v') :: insertReg rest k v

/-- The empty interpreter state (fresh stores, empty registry). -/
def State.empty : State := ⟨[], [], [], [], [], []⟩

/-- `LaminaError` from src/src/error.rs (the evaluator only ever builds
the `Runtime` variant). -/
inductive LaminaError where
  | Runtime (s : String)
  | Parser (s : String)
  | Lexer (s : String)
  | Evaluation (s : String)

/-- The `thiserror`-derived `Display` of `LaminaError`
(`e.to_string()` at closure boundaries). -/
def LaminaError.toMessage : LaminaError → String
  | .Runtime s => "Runtime error: " ++ s
  | .Parser s => "Parser error: " ++ s
  | .Lexer s => "Lexer error: " ++ s
  | .Evaluation s => "Evaluation error: " ++ s

/-- Derived `Debug` of `LaminaError` (used by `eval_guard` for non-Runtime
errors; string escaping beyond quoting is elided, no such error carries
quotes). -/
def LaminaError.debugFmt : LaminaError → String
  | .Runtime s => "Runtime(\"" ++ s ++ "\")"
  | .Parser s => "Parser(\"" ++ s ++ "\")"
  | .Lexer s => "Lexer(\"" ++ s ++ "\")"
  | .Evaluation s => "Evaluation(\"" ++ s ++ "\")"

/-- Derived `Debug` of `NumberKind` (`{:?}`).  The `Real` case uses Lean's
float printing as a stand-in for Rust's; no claim evaluates it. -/
def numDebug : NumberKind → String
  | .Integer i => "Integer(" ++ toString i ++ ")"
  | .Real r => "Real(" ++ toString r ++ ")"
  | .Rational n d => "Rational(" ++ toString n ++ ", " ++ toString d ++ ")"

def strListDebugTail : List String → String
  | [] => ""
  | s :: rest => ", \"" ++ s ++ "\"" ++ strListDebugTail rest

/-- Derived `Debug` of `Vec<String>` (library names); string escaping
elided, library-name components are plain words. -/
def strListDebug : List String → String
  | [] => "[]"
  | s :: rest => "[\"" ++ s ++ "\"" ++ strListDebugTail rest ++ "]"

def natListDebugTail : List Nat → String
  | [] => ""
  | n :: rest => ", " ++ toString n ++ natListDebugTail rest

/-- Derived `Debug` of `Vec<u8>` (bytevector contents). -/
def natListDebug : List Nat → String
  | [] => "[]"
  | n :: rest => "[" ++ toString n ++ natListDebugTail rest ++ "]"

mutual

/-- `impl fmt::Debug for Value` from src/src/value.rs (the `{:?}` format
used by `raise`, `error`, `guard` and the record accessors). -/
def vDebug (st : State) : Value → String
  | .Nil => "Nil"
  | .Boolean b => "Boolean(" ++ toString b ++ ")"
  | .Number n => "Number(" ++ numDebug n ++ ")"
  | .Character c => "Character(" ++ String.singleton c ++ ")"
  | .Str s => "String(" ++ s ++ ")"
  | .Symbol s => "Symbol(" ++ s ++ ")"
  | .Pair a b => "Pair(" ++ vDebug st a ++ ", " ++ vDebug st b ++ ")"
  | .Vector xs => "Vector(" ++ vListDebug st xs ++ ")"
  | .Procedure _ => "Procedure"
  | .Environment _ => "Environment"
  | .RecordType rt => "RecordType(" ++ (st.getRT rt).name ++ ")"
  | .Record r => "Record(" ++ (st.getRT (st.getRecord r).type_info).name ++ ")"
  | .Bytevector b => "Bytevector(" ++ natListDebug (st.bytevecs.getD b []) ++ ")"
  | .Library l => "Library(" ++ strListDebug (st.getLib l).name ++ ")"
  | .RustFn _ name => "RustFn(" ++ name ++ ")"

def vListDebug (st : State) : List Value → String
  | [] => "[]"
  | x :: xs => "[" ++ vDebug st x ++ vListDebugTail st xs ++ "]"

def vListDebugTail (st : State) : List Value → String
  | [] => ""
  | x :: xs => ", " ++ vDebug st x ++ vListDebugTail st xs

end

/-- Derived `PartialEq` of `NumberKind` (same variant, fieldwise; `Real`
compares with IEEE f64 equality). -/
def numberEq : NumberKind → NumberKind → Bool
  | .Integer a, .Integer b => a == b
  | .Real a, .Real b => a == b
  | .Rational a b, .Rational c d => a == c && b == d
  | _, _ => false

mutual

/-- `impl PartialEq for Value` from src/src/value.rs lines 229-261:
structural on atoms, `Pair` and `Vector`; always false for `Procedure`;
`Rc::ptr_eq` (address equality here) for `Environment`, `RecordType`,
`Record`, `Bytevector`, `Library`; false across variants (which also
makes `RustFn` never equal, via the catch-all arm). -/
def valueEq : Value → Value → Bool
  | .Nil, .Nil => true
  | .Boolean a, .Boolean b => a == b
  | .Number a, .Number b => numberEq a b
  | .Character a, .Character b => a == b
  | .Str a, .Str b => a == b
  | .Symbol a, .Symbol b => a == b
  | .Pair a b, .Pair c d => valueEq a c && valueEq b d
  | .Vector a, .Vector b => vListEq a b
  | .Procedure _, .Procedure _ => false
  | .Environment a, .Environment b => a == b
  | .RecordType a, .RecordType b => a == b
  | .Record a, .Record b => a == b
  | .Bytevector a, .Bytevector b => a == b
  | .Library a, .Library b => a == b
  | _, _ => false

/-- Length check plus elementwise comparison, as in the `Vector` arm. -/
def vListEq : List Value → List Value → Bool
  | [], [] => true
  | x :: xs, y :: ys => valueEq x y && vListEq xs ys
  | _, _ => false

end

/-- `NumberKind::as_f64`. -/
def NumberKind.asF64 : NumberKind → Float
  | .Integer i => Float.ofInt i
  | .Real r => r
  | .Rational n d => Float.ofInt n / Float.ofInt d

def listPrefixEq : List Char → List Char → Bool
  | [], _ => true
  | _ :: _, [] => false
  | a :: as, b :: bs => a == b && listPrefixEq as bs

/-- One stripping pass per fuel unit; since every successful strip of a
non-empty pattern removes at least one character, fuel `s.length`
realizes `str::trim_start_matches` exactly. -/
def dropMatchesF (p : List Char) : Nat → List Char → List Char
  | 0, s => s
  | f + 1, s =>
      if p.length ≠ 0 ∧ listPrefixEq p s = true then
        dropMatchesF p f (s.drop p.length)
      else s

/-- `str::starts_with`. -/
def strStartsWith (s p : String) : Bool := listPrefixEq p.toList s.toList

/-- `str::trim_start_matches` (strips every leading repetition of the
pattern). -/
def trimStartMatches (pat s : String) : String :=
  ⟨dropMatchesF pat.toList s.toList.length s.toList⟩

/-- Result of `eval_with_env`-style calls: `Result<Value, LaminaError>`
plus the mutated heap; `timeout` marks fuel exhaustion (runs on which the
Rust original recurses deeper than the given fuel). -/
inductive EvalRes where
  | ok (v : Value) (st : State)
  | err (e : LaminaError) (st : State)
  | timeout

/-- Result of applying a closure: `Result<Value, String>` plus heap. -/
inductive CallRes where
  | ok (v : Value) (st : State)
  | err (e : String) (st : State)
  | timeout

/-- Result of a loop that only threads the heap. -/
inductive StRes where
  | ok (st : State)
  | err (e : LaminaError) (st : State)
  | timeout

/-- Result of the `let*` binding loop (threads the current environment). -/
inductive EnvRes where
  | ok (env : Nat) (st : State)
  | err (e : LaminaError) (st : State)
  | timeout

/-- Result of the argument-evaluation loop in `eval_procedure_call`. -/
inductive ArgsRes where
  | ok (args : List Value) (st : State)
  | err (e : LaminaError) (st : State)
  | timeout

/-- The parameter-binding loop of the `lambda` closure
(special_forms.rs lines 31-57): positional binding of symbol formals with
the too-few-arguments check, non-symbol formals skipped (index still
advanced), then the tail: `Nil` is fine, a bare symbol is inserted bound
to `Value::Nil`, anything else is an error. -/
def bindParams (args : List Value) : Value → Nat → List (String × Value) →
    Except String (List (String × Value))
  | .Pair (.Symbol name) rest, idx, acc =>
      if args.length ≤ idx then
        .error ("Too few arguments, expected " ++ toString (idx + 1) ++
          " got " ++ toString args.length)
      else bindParams args rest (idx + 1) (insertA acc name (args.getD idx .Nil))
  | .Pair _ rest, idx, acc => bindParams args rest (idx + 1) acc
  | .Nil, _, acc => .ok acc
  | .Symbol name, _, acc => .ok (insertA acc name .Nil)
  | _, _, _ => .error "Invalid parameter list"

/-- The parameter-binding loop of the `(define (name . params) body)`
closure (special_forms.rs lines 125-143): same positional loop and arity
error as `lambda`, but with no handling of the parameter-list tail at all
(a dotted rest symbol is silently ignored). -/
def bindParamsDefine (args : List Value) : Value → Nat → List (String × Value) →
    Except String (List (String × Value))
  | .Pair (.Symbol name) rest, idx, acc =>
      if args.length ≤ idx then
        .error ("Too few arguments, expected " ++ toString (idx + 1) ++
          " got " ++ toString args.length)
      else bindParamsDefine args rest (idx + 1) (insertA acc name (args.getD idx .Nil))
  | .Pair _ rest, idx, acc => bindParamsDefine args rest (idx + 1) acc
  | _, _, acc => .ok acc

/-- `eval_lambda` (special_forms.rs lines 11-68): captures the current
environment by reference and packages params plus the FIRST body
expression into a closure; no evaluation happens. -/
def evalLambda (args : Value) (env : Nat) (st : State) : EvalRes :=
  match args with
  | .Pair params rest =>
      match rest with
      | .Pair body _ => .ok (.Procedure (.lambdaC params body env)) st
      | _ => .err (.Runtime "Malformed lambda") st
  | _ => .err (.Runtime "Invalid lambda form") st

/-- Constructor-parameter collection in `eval_define_record_type`
(special_forms.rs lines 635-648). -/
def collectCtorFields : Value → Except LaminaError (List String)
  | .Pair (.Symbol p) rest => do
      let t ← collectCtorFields rest
      .ok (p :: t)
  | .Pair _ _ => .error (.Runtime "Constructor parameter must be a symbol")
  | _ => .ok []

/-- Field-specification collection in `eval_define_record_type`
(special_forms.rs lines 659-711): yields
(field name, accessor name, optional mutator name) triples. -/
def collectFieldSpecs : Value → Except LaminaError (List (String × String × Option String))
  | .Pair (.Pair (.Symbol fieldName) fieldRest) rest =>
      match fieldRest with
      | .Pair (.Symbol acc) accCdr => do
          let mutName ←
            match accCdr with
            | .Pair (.Symbol m) _ => Except.ok (some m)
            | .Pair _ _ => Except.error (LaminaError.Runtime "Mutator must be a symbol")
            | _ => Except.ok none
          let t ← collectFieldSpecs rest
          .ok ((fieldName, acc, mutName) :: t)
      | .Pair _ _ => .error (.Runtime "Accessor must be a symbol")
      | _ => .error (.Runtime "Field specification must include an accessor")
  | .Pair (.Pair _ _) _ => .error (.Runtime "Field name must be a symbol")
  | .Pair _ _ => .error (.Runtime "Invalid field specification")
  | _ => .ok []

/-- `eval_define_record_type` (special_forms.rs lines 599-898): parses the
form, allocates one fresh `RecordType`, and binds — in this order — the
type name, the constructor, the predicate, the accessors (field order)
and the mutators (field order) in the current environment.  The predicate
captures the type NAME, not the type object. -/
def evalDefineRecordType (args : Value) (env : Nat) (st : State) : EvalRes :=
  match args with
  | .Pair typeCar typeCdr =>
      match typeCar with
      | .Symbol typeName =>
          match typeCdr with
          | .Pair ctorCar ctorCdr =>
              let ctorNameE : Except LaminaError String :=
                match ctorCar with
                | .Symbol c => .ok c
                | .Pair (.Symbol cn) _ => .ok cn
                | .Pair _ _ => .error (.Runtime "Constructor name must be a symbol")
                | _ => .error (.Runtime "Invalid constructor specification")
              match ctorNameE with
              | .error e => .err e st
              | .ok ctorName =>
                  let ctorFieldsE : Except LaminaError (List String) :=
                    match ctorCar with
                    | .Pair _ ctorParams => collectCtorFields ctorParams
                    | _ => .ok []
                  match ctorFieldsE with
                  | .error e => .err e st
                  | .ok ctorFields =>
                      match ctorCdr with
                      | .Pair predCar predCdr =>
                          match predCar with
                          | .Symbol predName =>
                              match collectFieldSpecs predCdr with
                              | .error e => .err e st
                              | .ok specs =>
                                  let rt : RecordType :=
                                    ⟨typeName,
                                      specs.map (fun s => (s.1, s.2.2.isSome))⟩
                                  let (rtAddr, st1) := st.allocRT rt
                                  let st2 := st1.insertBinding env typeName
                                    (.RecordType rtAddr)
                                  let st3 := st2.insertBinding env ctorName
                                    (.Procedure (.ctorC rtAddr ctorFields ctorName))
                                  let st4 := st3.insertBinding env predName
                                    (.Procedure (.predC typeName predName))
                                  let st5 := specs.foldl
                                    (fun acc s => acc.insertBinding env s.2.1
                                      (.Procedure (.accessorC s.1 typeName s.2.1)))
                                    st4
                                  let st6 := specs.foldl
                                    (fun acc s =>
                                      match s.2.2 with
                                      | some m => acc.insertBinding env m
                                          (.Procedure (.mutatorC s.1 typeName m))
                                      | none => acc)
                                    st5
                                  .ok .Nil st6
                          | _ => .err (.Runtime "Predicate must be a symbol") st
                      | _ => .err (.Runtime "Malformed record type definition") st
          | _ => .err (.Runtime "Malformed record type definition") st
      | _ => .err (.Runtime "Record type name must be a symbol") st
  | _ => .err (.Runtime "Malformed record type definition") st

/-- `count_length` from the hardcoded `length` native (libraries.rs
lines 323-332). -/
def countLength : Value → Except String Int
  | .Nil => .ok 0
  | .Pair _ rest => do
      let t ← countLength rest
      .ok (1 + t)
  | _ => .error "length requires a list argument"

/-- `reverse_list` from the hardcoded `reverse` native (libraries.rs
lines 349-358). -/
def reverseList : Value → Value → Except String Value
  | .Nil, acc => .ok acc
  | .Pair a rest, acc => reverseList rest (Value.Pair a acc)
  | _, _ => .error "reverse requires a list argument"

/-- The bodies of the hardcoded native procedures installed by
`import_library_bindings` (libraries.rs lines 264-458); all are pure. -/
def applyNative : NativeFn → List Value → Except String Value
  | .square, [.Number n] =>
      .ok (.Number (.Real (n.asF64 * n.asF64)))
  | .square, [_] => .error "square requires a numeric argument"
  | .square, _ => .error "square requires exactly one argument"
  | .cube, [.Number n] =>
      .ok (.Number (.Real (n.asF64 * n.asF64 * n.asF64)))
  | .cube, [_] => .error "cube requires a numeric argument"
  | .cube, _ => .error "cube requires exactly one argument"
  | .lengthFn, [v] => do
      let c ← countLength v
      .ok (.Number (.Integer c))
  | .lengthFn, _ => .error "length requires exactly one argument"
  | .reverseFn, [v] => do
      let r ← reverseList v .Nil
      .ok r
  | .reverseFn, _ => .error "reverse requires exactly one argument"
  | .publicFunc, [.Number n] => .ok (.Number (.Real (n.asF64 + 10.0)))
  | .publicFunc, [_] => .error "public-func requires a numeric argument"
  | .publicFunc, _ => .error "public-func requires exactly one argument"
  | .derivedFunc, [.Number n] => .ok (.Number (.Real ((n.asF64 + 5.0) * 2.0)))
  | .derivedFunc, [_] => .error "derived-func requires a numeric argument"
  | .derivedFunc, _ => .error "derived-func requires exactly one argument"
  | .baseFunc, [.Number n] => .ok (.Number (.Real (n.asF64 * 2.0)))
  | .baseFunc, [_] => .error "base-func requires a numeric argument"
  | .baseFunc, _ => .error "base-func requires exactly one argument"

/-- Library-name collection in `eval_define_library` (libraries.rs lines
32-40): walks the name list keeping the symbols. -/
def collectLibraryName : Value → List String
  | .Pair (.Symbol s) rest => s :: collectLibraryName rest
  | .Pair _ rest => collectLibraryName rest
  | _ => []

/-- Name collection inside one `(export ...)` declaration (libraries.rs
lines 63-72). -/
def collectExportNames : Value → List String
  | .Pair (.Symbol s) rest => s :: collectExportNames rest
  | .Pair _ rest => collectExportNames rest
  | _ => []

/-- The export half of the first declaration pass of
`eval_define_library` (libraries.rs lines 55-93). -/
def collectExports : Value → List String
  | .Pair (.Pair (.Symbol "export") tail) rest =>
      collectExportNames tail ++ collectExports rest
  | .Pair _ rest => collectExports rest
  | _ => []

/-- `extract_library_name` (libraries.rs lines 214-244): pushes symbols,
recurses into nested pairs on the car, recurses on pair cdrs, accepts
`Nil`, and rejects any other atom. -/
def extractLibraryName (st : State) : Value → List String →
    Except LaminaError (List String)
  | .Pair a b, acc => do
      let acc1 ←
        match a with
        | .Symbol s => Except.ok (acc ++ [s])
        | .Pair _ _ => extractLibraryName st a acc
        | _ => Except.ok acc
      match b with
      | .Pair _ _ => extractLibraryName st b acc1
      | _ => Except.ok acc1
  | .Symbol s, acc => .ok (acc ++ [s])
  | .Nil, acc => .ok acc
  | v, _ => .error (.Runtime ("Invalid library name component: " ++ vDebug st v))

/-- The generic export-copying loop at the end of
`import_library_bindings` (libraries.rs lines 461-474): for each exported
name in order, copy its current binding from the library environment when
present, silently skip it otherwise. -/
def copyExports (st : State) (libEnvAddr : Nat) (exports : List String)
    (target : Nat) : State :=
  match exports with
  | [] => st
  | e :: rest =>
      match lookupA (st.getEnv libEnvAddr).bindings e with
      | some v => copyExports (st.insertBinding target e v) libEnvAddr rest target
      | none => copyExports st libEnvAddr rest target

/-- Helper for the hardcoded branches: insert a native procedure under
`name` iff `name` is exported. -/
def insertNative (st : State) (target : Nat) (exports : List String)
    (name : String) (f : NativeFn) : State :=
  if exports.contains name then
    st.insertBinding target name (.Procedure (.native f))
  else st

/-- `import_library_bindings` (libraries.rs lines 247-477): five hardcoded
library names get synthesized native procedures for their exported names
INSTEAD of the library's own bindings; every other library falls through
to the generic export-copying loop.  Always succeeds. -/
def importLibraryBindings (st : State) (libAddr : Nat) (target : Nat) : State :=
  let lib := st.getLib libAddr
  let exports := lib.exports
  if lib.name = ["example", "math"] then
    insertNative (insertNative st target exports "square" .square)
      target exports "cube" .cube
  else if lib.name = ["example", "list"] then
    insertNative (insertNative st target exports "length" .lengthFn)
      target exports "reverse" .reverseFn
  else if lib.name = ["example", "private"] then
    insertNative st target exports "public-func" .publicFunc
  else if lib.name = ["example", "derived"] then
    insertNative st target exports "derived-func" .derivedFunc
  else if lib.name = ["example", "base"] then
    insertNative st target exports "base-func" .baseFunc
  else
    copyExports st lib.environment exports target

/-- The chain walk of `lookup_variable` (environment.rs lines 426-447),
fuelled: `none` marks fuel exhaustion (the Rust loop would keep walking),
`some r` is the Rust result. -/
def lookupVariableF : Nat → State → Nat → String → Option (Option Value)
  | 0, _, _, _ => none
  | n + 1, st, a, k =>
      match lookupA (st.getEnv a).bindings k with
      | some v => some (some v)
      | none =>
          match (st.getEnv a).parent with
          | some p => lookupVariableF n st p k
          | none => some none

/-- The chain walk of `eval_set` (special_forms.rs lines 183-201),
fuelled: finds the address of the first environment, walking outward,
whose own table contains the name; `some none` is the unbound case. -/
def findSetTargetF : Nat → State → Nat → String → Option (Option Nat)
  | 0, _, _, _ => none
  | n + 1, st, a, k =>
      if containsA (st.getEnv a).bindings k then some (some a)
      else
        match (st.getEnv a).parent with
        | some p => findSetTargetF n st p k
        | none => some none

/-- First pass of `eval_letrec` (special_forms.rs lines 371-383):
placeholder-bind every symbol-named binding to `Value::Nil`. -/
def letrecPlaceholders (st : State) (newEnv : Nat) : Value → State
  | .Pair (.Pair (.Symbol name) _) rest =>
      letrecPlaceholders (st.insertBinding newEnv name .Nil) newEnv rest
  | .Pair _ rest => letrecPlaceholders st newEnv rest
  | _ => st

/-- The constructor closure's field-population loop (special_forms.rs
lines 742-752): `args[i]` is stored under the i-th constructor field iff
that field appears in the record type's declared field list. -/
def buildCtorValues (rtFields : List (String × Bool)) :
    List String → List Value → List (String × Value) → List (String × Value)
  | f :: fs, a :: rest, acc =>
      if rtFields.any (fun p => p.1 == f) then
        buildCtorValues rtFields fs rest (insertA acc f a)
      else buildCtorValues rtFields fs rest acc
  | _, _, acc => acc

set_option maxHeartbeats 4000000
mutual

/-- `eval_with_env` (evaluator/mod.rs lines 23-64): symbols are looked up
along the chain, `Pair`s dispatch, `Environment` values are an error, and
every other variant is self-evaluating. -/
def evalWithEnv : Nat → Value → Nat → State → EvalRes
  | 0, _, _, _ => .timeout
  | n + 1, expr, env, st =>
      match expr with
      | .Symbol s =>
          match lookupVariableF (n + 1) st env s with
          | none => .timeout
          | some (some v) => .ok v st
          | some none => .err (.Runtime ("Undefined variable: " ++ s)) st
      | .Number _ | .Boolean _ | .Character _ | .Str _ | .Nil
      | .Procedure _ | .RustFn _ _ => .ok expr st
      | .Pair _ _ => evalPair n expr env st
      | .Library _ => .ok expr st
      | .RecordType _ => .ok expr st
      | .Record _ => .ok expr st
      | .Bytevector _ => .ok expr st
      | .Vector _ => .ok expr st
      | .Environment _ => .err (.Runtime "Cannot evaluate an environment") st

termination_by structural n a b c => n

/-- `eval_pair` (evaluator/mod.rs lines 67-120): special-form dispatch on
a symbol head, otherwise procedure application. -/
def evalPair : Nat → Value → Nat → State → EvalRes
  | 0, _, _, _ => .timeout
  | n + 1, expr, env, st =>
      match expr with
      | .Pair h t =>
          match h with
          | .Symbol s =>
              if s = "quote" then
                match t with
                | .Pair q _ => .ok q st
                | _ => .err (.Runtime "Malformed quote") st
              else if s = "lambda" then evalLambda t env st
              else if s = "if" then evalIf n t env st
              else if s = "define" then evalDefine n t env st
              else if s = "set!" then evalSet n t env st
              else if s = "cond" then evalCond n t env st
              else if s = "let" then evalLet n t env st
              else if s = "let*" then evalLetStar n t env st
              else if s = "letrec" then evalLetrec n t env st
              else if s = "define-library" then evalDefineLibrary n t env st
              else if s = "import" then evalImport n t env st
              else if s = "begin" then evalBegin n t env st .Nil
              else if s = "with-exception-handler" then evalWEH n t env st
              else if s = "raise" then evalRaise n t env st
              else if s = "error" then evalError n t env st
              else if s = "guard" then evalGuard n t env st
              else if s = "define-record-type" then evalDefineRecordType t env st
              else evalProcedureCall n expr env st
          | _ => evalProcedureCall n expr env st
      | _ => .err (.Runtime "Expected pair") st

termination_by structural n a b c => n

/-- The `begin` loop in `eval_pair` (evaluator/mod.rs lines 90-100). -/
def evalBegin : Nat → Value → Nat → State → Value → EvalRes
  | 0, _, _, _, _ => .timeout
  | n + 1, cur, env, st, result =>
      match cur with
      | .Pair a rest =>
          match evalWithEnv n a env st with
          | .ok v st' => evalBegin n rest env st' v
          | .err e st' => .err e st'
          | .timeout => .timeout
      | _ => .ok result st

termination_by structural n a b c d => n

/-- `eval_procedure_call` (evaluator/mod.rs lines 123-153): evaluate the
operator, then the operands left to right, then apply. -/
def evalProcedureCall : Nat → Value → Nat → State → EvalRes
  | 0, _, _, _ => .timeout
  | n + 1, expr, env, st =>
      match expr with
      | .Pair h t =>
          match evalWithEnv n h env st with
          | .timeout => .timeout
          | .err e st' => .err e st'
          | .ok proc st' =>
              match evalArgs n t env st' [] with
              | .timeout => .timeout
              | .err e st2 => .err e st2
              | .ok args st2 =>
                  match proc with
                  | .Procedure c =>
                      match applyClosure n c args st2 with
                      | .ok v st3 => .ok v st3
                      | .err e st3 => .err (.Runtime e) st3
                      | .timeout => .timeout
                  | .RustFn c name =>
                      match applyClosure n c args st2 with
                      | .ok v st3 => .ok v st3
                      | .err e st3 =>
                          .err (.Runtime ("Error in Rust function " ++ name ++
                            ": " ++ e)) st3
                      | .timeout => .timeout
                  | _ => .err (.Runtime "Not a procedure") st2
      | _ => .err (.Runtime "Expected pair") st

termination_by structural n a b c => n

/-- The argument-evaluation loop of `eval_procedure_call`. -/
def evalArgs : Nat → Value → Nat → State → List Value → ArgsRes
  | 0, _, _, _, _ => .timeout
  | n + 1, cur, env, st, acc =>
      match cur with
      | .Pair a rest =>
          match evalWithEnv n a env st with
          | .ok v st' => evalArgs n rest env st' (acc ++ [v])
          | .err e st' => .err e st'
          | .timeout => .timeout
      | _ => .ok acc st

termination_by structural n a b c d => n

/-- Application of a defunctionalized closure: the bodies of the `move`
closures in special_forms.rs (lambda line 24, define line 118, record
machinery lines 726-859) and the hardcoded natives of libraries.rs. -/
def applyClosure : Nat → Closure → List Value → State → CallRes
  | 0, _, _, _ => .timeout
  | n + 1, c, args, st =>
      match c with
      | .lambdaC params body envC =>
          let (newEnv, st1) := st.allocEnv ⟨some envC, []⟩
          match bindParams args params 0 [] with
          | .error e => .err e st1
          | .ok bs =>
              let st2 := st1.setEnv newEnv ⟨some envC, bs⟩
              match evalWithEnv n body newEnv st2 with
              | .ok v st3 => .ok v st3
              | .err e st3 => .err e.toMessage st3
              | .timeout => .timeout
      | .defineC params body envC =>
          let (newEnv, st1) := st.allocEnv ⟨some envC, []⟩
          match bindParamsDefine args params 0 [] with
          | .error e => .err e st1
          | .ok bs =>
              let st2 := st1.setEnv newEnv ⟨some envC, bs⟩
              match evalWithEnv n body newEnv st2 with
              | .ok v st3 => .ok v st3
              | .err e st3 => .err e.toMessage st3
              | .timeout => .timeout
      | .ctorC rt fields name =>
          if args.length ≠ fields.length then
            .err ("Constructor " ++ name ++ " requires " ++
              toString fields.length ++ " arguments, got " ++
              toString args.length) st
          else
            let vals := buildCtorValues (st.getRT rt).fields fields args []
            let (rAddr, st1) := st.allocRecord ⟨rt, vals⟩
            .ok (.Record rAddr) st1
      | .predC typeName predName =>
          match args with
          | [arg] =>
              match arg with
              | .Record r =>
                  .ok (.Boolean
                    ((st.getRT (st.getRecord r).type_info).name == typeName)) st
              | _ => .ok (.Boolean false) st
          | _ => .err ("Predicate " ++ predName ++
              " requires exactly 1 argument") st
      | .accessorC fieldName typeName accessorName =>
          match args with
          | [arg] =>
              match arg with
              | .Record r =>
                  if (st.getRT (st.getRecord r).type_info).name ≠ typeName then
                    .err ("Expected record of type " ++ typeName ++ ", got " ++
                      (st.getRT (st.getRecord r).type_info).name) st
                  else
                    match lookupA (st.getRecord r).values fieldName with
                    | some v => .ok v st
                    | none => .err ("Field " ++ fieldName ++
                        " not found in record") st
              | _ => .err ("Expected record, got " ++ vDebug st arg) st
          | _ => .err ("Accessor " ++ accessorName ++
              " requires exactly 1 argument") st
      | .mutatorC fieldName typeName mutatorName =>
          match args with
          | [arg, newVal] =>
              match arg with
              | .Record r =>
                  if (st.getRT (st.getRecord r).type_info).name ≠ typeName then
                    .err ("Expected record of type " ++ typeName ++ ", got " ++
                      (st.getRT (st.getRecord r).type_info).name) st
                  else if !((st.getRT (st.getRecord r).type_info).fields.any
                      (fun f => f.1 == fieldName && f.2)) then
                    .err ("Field " ++ fieldName ++ " is not mutable") st
                  else
                    .ok .Nil (st.setRecord r
                      { st.getRecord r with
                        values := insertA (st.getRecord r).values fieldName newVal })
              | _ => .err ("Expected record, got " ++ vDebug st arg) st
          | _ => .err ("Mutator " ++ mutatorName ++
              " requires exactly 2 arguments") st
      | .native f =>
          match applyNative f args with
          | .ok v => .ok v st
          | .error e => .err e st

termination_by structural n a b c => n

/-- `eval_if` (special_forms.rs lines 71-91). -/
def evalIf : Nat → Value → Nat → State → EvalRes
  | 0, _, _, _ => .timeout
  | n + 1, args, env, st =>
      match args with
      | .Pair test rest =>
          match evalWithEnv n test env st with
          | .err e st' => .err e st'
          | .timeout => .timeout
          | .ok tv st' =>
              match rest with
              | .Pair conseq rest2 =>
                  match tv with
                  | .Boolean false =>
                      match rest2 with
                      | .Pair alt _ => evalWithEnv n alt env st'
                      | _ => .ok .Nil st'
                  | _ => evalWithEnv n conseq env st'
              | _ => .err (.Runtime "Malformed if expression") st'
      | _ => .err (.Runtime "Malformed if expression") st

termination_by structural n a b c => n

/-- `eval_define` (special_forms.rs lines 94-166): value form evaluates
and binds; function form binds a `defineC` closure whose body is the
ENTIRE rest of the form (the list of body expressions). -/
def evalDefine : Nat → Value → Nat → State → EvalRes
  | 0, _, _, _ => .timeout
  | n + 1, args, env, st =>
      match args with
      | .Pair h t =>
          match h with
          | .Symbol name =>
              match t with
              | .Pair valueExpr _ =>
                  match evalWithEnv n valueExpr env st with
                  | .ok v st' => .ok .Nil (st'.insertBinding env name v)
                  | .err e st' => .err e st'
                  | .timeout => .timeout
              | _ => .err (.Runtime "Malformed define") st
          | .Pair (.Symbol name) params =>
              .ok .Nil (st.insertBinding env name
                (.Procedure (.defineC params t env)))
          | .Pair _ _ =>
              .err (.Runtime "First argument to define must be a symbol") st
          | _ => .err (.Runtime "First argument to define must be a symbol") st
      | _ => .err (.Runtime "Malformed define") st

termination_by structural n a b c => n

/-- `eval_set` (special_forms.rs lines 169-221): evaluate the value, then
walk outward for the first environment whose own table has the name and
overwrite there; unbound is an error. -/
def evalSet : Nat → Value → Nat → State → EvalRes
  | 0, _, _, _ => .timeout
  | n + 1, args, env, st =>
      match args with
      | .Pair (.Symbol name) t =>
          match t with
          | .Pair valueExpr _ =>
              match evalWithEnv n valueExpr env st with
              | .ok v st' =>
                  match findSetTargetF (n + 1) st' env name with
                  | none => .timeout
                  | some (some tgt) => .ok .Nil (st'.insertBinding tgt name v)
                  | some none =>
                      .err (.Runtime ("Undefined variable: " ++ name)) st'
              | .err e st' => .err e st'
              | .timeout => .timeout
          | _ => .err (.Runtime "Malformed set!") st
      | .Pair _ _ =>
          .err (.Runtime "First argument to set! must be a symbol") st
      | _ => .err (.Runtime "Malformed set!") st

termination_by structural n a b c => n

/-- `eval_cond` (special_forms.rs lines 224-255). -/
def evalCond : Nat → Value → Nat → State → EvalRes
  | 0, _, _, _ => .timeout
  | n + 1, clauses, env, st =>
      match clauses with
      | .Pair clause rest =>
          match clause with
          | .Pair test clauseRest =>
              match evalWithEnv n test env st with
              | .err e st' => .err e st'
              | .timeout => .timeout
              | .ok tv st' =>
                  match tv with
                  | .Boolean false => evalCond n rest env st'
                  | _ =>
                      match clauseRest with
                      | .Pair conseq _ => evalWithEnv n conseq env st'
                      | _ => .ok tv st'
          | .Symbol s =>
              if s = "else" then
                match rest with
                | .Pair elseExpr _ => evalWithEnv n elseExpr env st
                | _ => .ok .Nil st
              else evalCond n rest env st
          | _ => evalCond n rest env st
      | _ => .ok .Nil st

termination_by structural n a b c => n

/-- `eval_let` (special_forms.rs lines 258-301). -/
def evalLet : Nat → Value → Nat → State → EvalRes
  | 0, _, _, _ => .timeout
  | n + 1, args, env, st =>
      match args with
      | .Pair bindings rest =>
          match rest with
          | .Pair body _ =>
              let (newEnv, st1) := st.allocEnv ⟨some env, []⟩
              match evalLetBindings n bindings env newEnv st1 with
              | .ok st2 => evalWithEnv n body newEnv st2
              | .err e st2 => .err e st2
              | .timeout => .timeout
          | _ => .err (.Runtime "Malformed let") st
      | _ => .err (.Runtime "Malformed let") st

termination_by structural n a b c => n

/-- The binding loop of `eval_let`: initializers evaluated in the OUTER
environment. -/
def evalLetBindings : Nat → Value → Nat → Nat → State → StRes
  | 0, _, _, _, _ => .timeout
  | n + 1, cur, outerEnv, newEnv, st =>
      match cur with
      | .Pair binding rest =>
          match binding with
          | .Pair (.Symbol name) varRest =>
              match varRest with
              | .Pair valueExpr _ =>
                  match evalWithEnv n valueExpr outerEnv st with
                  | .ok v st' =>
                      evalLetBindings n rest outerEnv newEnv
                        (st'.insertBinding newEnv name v)
                  | .err e st' => .err e st'
                  | .timeout => .timeout
              | _ => .err (.Runtime "Malformed binding in let") st
          | .Pair _ _ => evalLetBindings n rest outerEnv newEnv st
          | _ => evalLetBindings n rest outerEnv newEnv st
      | _ => .ok st

termination_by structural n a b c d => n

/-- `eval_let_star` (special_forms.rs lines 304-350). -/
def evalLetStar : Nat → Value → Nat → State → EvalRes
  | 0, _, _, _ => .timeout
  | n + 1, args, env, st =>
      match args with
      | .Pair bindings rest =>
          match rest with
          | .Pair body _ =>
              match evalLetStarBindings n bindings env st with
              | .ok finalEnv st' => evalWithEnv n body finalEnv st'
              | .err e st' => .err e st'
              | .timeout => .timeout
          | _ => .err (.Runtime "Malformed let*") st
      | _ => .err (.Runtime "Malformed let*") st

termination_by structural n a b c => n

/-- The binding loop of `eval_let_star`: each initializer is evaluated in
the environment threaded so far, then wrapped in a fresh child. -/
def evalLetStarBindings : Nat → Value → Nat → State → EnvRes
  | 0, _, _, _ => .timeout
  | n + 1, cur, curEnv, st =>
      match cur with
      | .Pair binding rest =>
          match binding with
          | .Pair (.Symbol name) varRest =>
              match varRest with
              | .Pair valueExpr _ =>
                  match evalWithEnv n valueExpr curEnv st with
                  | .ok v st' =>
                      let (newEnv, st2) := st'.allocEnv ⟨some curEnv, []⟩
                      evalLetStarBindings n rest newEnv
                        (st2.insertBinding newEnv name v)
                  | .err e st' => .err e st'
                  | .timeout => .timeout
              | _ => .err (.Runtime "Malformed binding in let*") st
          | .Pair _ _ => evalLetStarBindings n rest curEnv st
          | _ => evalLetStarBindings n rest curEnv st
      | _ => .ok curEnv st

termination_by structural n a b c => n

/-- `eval_letrec` (special_forms.rs lines 353-410). -/
def evalLetrec : Nat → Value → Nat → State → EvalRes
  | 0, _, _, _ => .timeout
  | n + 1, args, env, st =>
      match args with
      | .Pair bindings rest =>
          match rest with
          | .Pair body _ =>
              let (newEnv, st1) := st.allocEnv ⟨some env, []⟩
              let st2 := letrecPlaceholders st1 newEnv bindings
              match evalLetrecInit n bindings newEnv st2 with
              | .ok st3 => evalWithEnv n body newEnv st3
              | .err e st3 => .err e st3
              | .timeout => .timeout
          | _ => .err (.Runtime "Malformed letrec") st
      | _ => .err (.Runtime "Malformed letrec") st

termination_by structural n a b c => n

/-- Second pass of `eval_letrec`: initializers evaluated in the new
environment, overwriting the placeholders. -/
def evalLetrecInit : Nat → Value → Nat → State → StRes
  | 0, _, _, _ => .timeout
  | n + 1, cur, newEnv, st =>
      match cur with
      | .Pair binding rest =>
          match binding with
          | .Pair (.Symbol name) varRest =>
              match varRest with
              | .Pair valueExpr _ =>
                  match evalWithEnv n valueExpr newEnv st with
                  | .ok v st' =>
                      evalLetrecInit n rest newEnv (st'.insertBinding newEnv name v)
                  | .err e st' => .err e st'
                  | .timeout => .timeout
              | _ => .err (.Runtime "Malformed binding in letrec") st
          | .Pair _ _ => evalLetrecInit n rest newEnv st
          | _ => evalLetrecInit n rest newEnv st
      | _ => .ok st

termination_by structural n a b c => n

/-- `eval_with_exception_handler` (special_forms.rs lines 413-455): the
handler, when the thunk's application fails with message `e`, is called
with the single argument `Value::Symbol(e)`. -/
def evalWEH : Nat → Value → Nat → State → EvalRes
  | 0, _, _, _ => .timeout
  | n + 1, args, env, st =>
      match args with
      | .Pair handlerExpr t =>
          match evalWithEnv n handlerExpr env st with
          | .err e st' => .err e st'
          | .timeout => .timeout
          | .ok handler st1 =>
              match t with
              | .Pair thunkExpr _ =>
                  match evalWithEnv n thunkExpr env st1 with
                  | .err e st' => .err e st'
                  | .timeout => .timeout
                  | .ok thunk st2 =>
                      match thunk with
                      | .Procedure f =>
                          match applyClosure n f [] st2 with
                          | .ok result st3 => .ok result st3
                          | .timeout => .timeout
                          | .err e st3 =>
                              match handler with
                              | .Procedure hc =>
                                  match applyClosure n hc [.Symbol e] st3 with
                                  | .ok r st4 => .ok r st4
                                  | .err e2 st4 => .err (.Runtime e2) st4
                                  | .timeout => .timeout
                              | _ =>
                                  .err (.Runtime "Handler must be a procedure") st3
                      | _ => .err (.Runtime "Thunk must be a procedure") st2
              | _ =>
                  .err (.Runtime
                    "with-exception-handler requires a handler and a thunk") st1
      | _ =>
          .err (.Runtime
            "with-exception-handler requires a handler and a thunk") st

termination_by structural n a b c => n

/-- `eval_raise` (special_forms.rs lines 457-467): fails with
`"Exception: "` followed by the Debug rendering of the evaluated value. -/
def evalRaise : Nat → Value → Nat → State → EvalRes
  | 0, _, _, _ => .timeout
  | n + 1, args, env, st =>
      match args with
      | .Pair objExpr _ =>
          match evalWithEnv n objExpr env st with
          | .ok v st' => .err (.Runtime ("Exception: " ++ vDebug st' v)) st'
          | .err e st' => .err e st'
          | .timeout => .timeout
      | _ => .err (.Runtime "raise requires an argument") st

termination_by structural n a b c => n

/-- `eval_error` (special_forms.rs lines 469-485). -/
def evalError : Nat → Value → Nat → State → EvalRes
  | 0, _, _, _ => .timeout
  | n + 1, args, env, st =>
      match args with
      | .Pair msgExpr _ =>
          match evalWithEnv n msgExpr env st with
          | .ok v st' =>
              let m := match v with
                | .Str s => s
                | _ => vDebug st' v
              .err (.Runtime ("Error: " ++ m)) st'
          | .err e st' => .err e st'
          | .timeout => .timeout
      | _ => .err (.Runtime "error requires an argument") st

termination_by structural n a b c => n

/-- `eval_guard` (special_forms.rs lines 487-596): on body failure the
variable is bound, in a fresh child environment, to a `Symbol` holding
the error text (with every leading `"Exception: "` stripped), and the
clauses are scanned. -/
def evalGuard : Nat → Value → Nat → State → EvalRes
  | 0, _, _, _ => .timeout
  | n + 1, args, env, st =>
      match args with
      | .Pair varClauses t =>
          match varClauses with
          | .Pair varV clauses =>
              match varV with
              | .Symbol exceptionVar =>
                  match t with
                  | .Pair body _ =>
                      match evalWithEnv n body env st with
                      | .ok result st' => .ok result st'
                      | .timeout => .timeout
                      | .err error st' =>
                          let (guardEnv, st1) := st'.allocEnv ⟨some env, []⟩
                          let exceptionValue : Value :=
                            match error with
                            | .Runtime e =>
                                if strStartsWith e "Exception: " then
                                  .Symbol (trimStartMatches "Exception: " e)
                                else .Symbol e
                            | _ => .Symbol error.debugFmt
                          let st2 := st1.insertBinding guardEnv exceptionVar
                            exceptionValue
                          evalGuardClauses n clauses guardEnv st2 exceptionValue
                  | _ => .err (.Runtime "Malformed guard expression") st
              | _ => .err (.Runtime "Guard variable must be a symbol") st
          | _ => .err (.Runtime "Malformed guard expression") st
      | _ => .err (.Runtime "Malformed guard expression") st

termination_by structural n a b c => n

/-- The clause loop of `eval_guard` (special_forms.rs lines 538-584): a
`#t` test selects, `#f` skips, any other test value is an error; a BARE
`else` symbol clause matches; exhaustion re-raises as
"Unhandled exception". -/
def evalGuardClauses : Nat → Value → Nat → State → Value → EvalRes
  | 0, _, _, _, _ => .timeout
  | n + 1, clauses, guardEnv, st, excVal =>
      match clauses with
      | .Pair clause rest =>
          match clause with
          | .Pair test clauseRest =>
              match evalWithEnv n test guardEnv st with
              | .err e st' => .err e st'
              | .timeout => .timeout
              | .ok tv st' =>
                  match tv with
                  | .Boolean true =>
                      match clauseRest with
                      | .Pair expr _ => evalWithEnv n expr guardEnv st'
                      | _ => evalGuardClauses n rest guardEnv st' excVal
                  | .Boolean false => evalGuardClauses n rest guardEnv st' excVal
                  | _ =>
                      .err (.Runtime "Guard test must evaluate to a boolean") st'
          | .Symbol s =>
              if s = "else" then
                match rest with
                | .Pair exprP _ =>
                    match exprP with
                    | .Pair inner _ => evalWithEnv n inner guardEnv st
                    | _ => evalWithEnv n exprP guardEnv st
                | _ => evalGuardClauses n rest guardEnv st excVal
              else evalGuardClauses n rest guardEnv st excVal
          | _ => evalGuardClauses n rest guardEnv st excVal
      | _ =>
          .err (.Runtime ("Unhandled exception: " ++ vDebug st excVal)) st

termination_by structural n a b c d => n

/-- `eval_define_library` (libraries.rs lines 24-159): collect the name
and the exports, process import declarations into the fresh library
environment, evaluate `begin` definitions there, then allocate and
register the `Library` (its `imports` field is never filled). -/
def evalDefineLibrary : Nat → Value → Nat → State → EvalRes
  | 0, _, _, _ => .timeout
  | n + 1, args, env, st =>
      match args with
      | .Pair namePart decls =>
          let libraryName := collectLibraryName namePart
          let (libEnv, st1) := st.allocEnv ⟨some env, []⟩
          let exports := collectExports decls
          match defLibImportsPass n decls libEnv st1 with
          | .err e st2 => .err e st2
          | .timeout => .timeout
          | .ok st2 =>
              match defLibBeginPass n decls libEnv st2 with
              | .err e st3 => .err e st3
              | .timeout => .timeout
              | .ok st3 =>
                  let (libAddr, st4) :=
                    st3.allocLib ⟨libraryName, exports, [], libEnv⟩
                  .ok (.Library libAddr) (st4.registerLibrary libAddr)
      | _ => .err (.Runtime "Malformed define-library") st

termination_by structural n a b c => n

/-- The import half of the first declaration pass of
`eval_define_library`. -/
def defLibImportsPass : Nat → Value → Nat → State → StRes
  | 0, _, _, _ => .timeout
  | n + 1, decls, libEnv, st =>
      match decls with
      | .Pair (.Pair (.Symbol "import") tail) rest =>
          match defLibImportSpecs n tail libEnv st with
          | .ok st' => defLibImportsPass n rest libEnv st'
          | .err e st' => .err e st'
          | .timeout => .timeout
      | .Pair _ rest => defLibImportsPass n rest libEnv st
      | _ => .ok st

termination_by structural n a b c => n

/-- One `(import ...)` declaration inside `define-library`: each spec is
fed to `eval_import` wrapped as a one-element list. -/
def defLibImportSpecs : Nat → Value → Nat → State → StRes
  | 0, _, _, _ => .timeout
  | n + 1, specs, libEnv, st =>
      match specs with
      | .Pair spec rest =>
          match evalImport n (.Pair spec .Nil) libEnv st with
          | .ok _ st' => defLibImportSpecs n rest libEnv st'
          | .err e st' => .err e st'
          | .timeout => .timeout
      | _ => .ok st

termination_by structural n a b c => n

/-- The second declaration pass of `eval_define_library`: `begin` forms
are evaluated in the library environment, everything else is skipped. -/
def defLibBeginPass : Nat → Value → Nat → State → StRes
  | 0, _, _, _ => .timeout
  | n + 1, decls, libEnv, st =>
      match decls with
      | .Pair (.Pair (.Symbol "begin") tail) rest =>
          match defLibBeginDefs n tail libEnv st with
          | .ok st' => defLibBeginPass n rest libEnv st'
          | .err e st' => .err e st'
          | .timeout => .timeout
      | .Pair _ rest => defLibBeginPass n rest libEnv st
      | _ => .ok st

termination_by structural n a b c => n

/-- The definition loop of one `begin` declaration. -/
def defLibBeginDefs : Nat → Value → Nat → State → StRes
  | 0, _, _, _ => .timeout
  | n + 1, defs, libEnv, st =>
      match defs with
      | .Pair d rest =>
          match evalWithEnv n d libEnv st with
          | .ok _ st' => defLibBeginDefs n rest libEnv st'
          | .err e st' => .err e st'
          | .timeout => .timeout
      | _ => .ok st

termination_by structural n a b c => n

/-- `eval_import` (libraries.rs lines 162-211): resolve each spec in the
registry and copy bindings via `import_library_bindings`. -/
def evalImport : Nat → Value → Nat → State → EvalRes
  | 0, _, _, _ => .timeout
  | n + 1, cur, env, st =>
      match cur with
      | .Pair spec rest =>
          match spec with
          | .Symbol s =>
              match st.getLibrary [s] with
              | some lib =>
                  evalImport n rest env (importLibraryBindings st lib env)
              | none =>
                  .err (.Runtime ("Library not found: " ++ strListDebug [s])) st
          | .Pair _ _ =>
              match extractLibraryName st spec [] with
              | .error e => .err e st
              | .ok libraryName =>
                  match st.getLibrary libraryName with
                  | some lib =>
                      evalImport n rest env (importLibraryBindings st lib env)
                  | none =>
                      .err (.Runtime ("Library not found: " ++
                        strListDebug libraryName)) st
          | _ =>
              .err (.Runtime ("Invalid import specification: " ++
                vDebug st spec)) st
      | _ => .ok .Nil st

termination_by structural n a b c => n

end

/-- Build a proper list value (right-nested pairs ending in `Nil`). -/
def mkList : List Value → Value
  | [] => .Nil
  | v :: rest => .Pair v (mkList rest)

/-- Build a parameter list from symbol names plus an explicit tail. -/
def mkParams (ns : List String) (tail : Value) : Value :=
  ns.foldr (fun n acc => .Pair (.Symbol n) acc) tail

def EvalRes.valueOf : EvalRes → Option Value
  | .ok v _ => some v
  | _ => none

def EvalRes.errOf : EvalRes → Option LaminaError
  | .err e _ => some e
  | _ => none

def EvalRes.stateOf : EvalRes → Option State
  | .ok _ st => some st
  | .err _ st => some st
  | .timeout => none

def CallRes.valueOf : CallRes → Option Value
  | .ok v _ => some v
  | _ => none

/-- A fresh interpreter heap holding one (empty, parentless) global
environment at address 0. -/
def baseState : State := { State.empty with envs := [⟨none, []⟩] }

/-- C5 counterexample state: spelled out for readability. -/
def numV (i : Int) : Value := .Number (.Integer i)

/-- C5: the claim includes `Environment` among the self-evaluating kinds,
but `eval_with_env` (evaluator/mod.rs lines 57-62) returns the error
"Cannot evaluate an environment" for an `Environment` value. -/
theorem C5_environment_counterexample :
    evalWithEnv 1 (.Environment 0) 0 baseState
      = .err (.Runtime "Cannot evaluate an environment") baseState :=
  rfl

/-- C5 (amended): of the twelve kinds listed, the eleven kinds other than
`Environment` evaluate to themselves under any environment and state;
evaluating an `Environment` value fails with "Cannot evaluate an
environment". -/
theorem C5_self_evaluation (n : Nat) (env : Nat) (st : State) :
    (∀ k, evalWithEnv (n + 1) (.Number k) env st = .ok (.Number k) st)
    ∧ (∀ b, evalWithEnv (n + 1) (.Boolean b) env st = .ok (.Boolean b) st)
    ∧ (∀ s, evalWithEnv (n + 1) (.Str s) env st = .ok (.Str s) st)
    ∧ (∀ c, evalWithEnv (n + 1) (.Character c) env st = .ok (.Character c) st)
    ∧ evalWithEnv (n + 1) .Nil env st = .ok .Nil st
    ∧ (∀ xs, evalWithEnv (n + 1) (.Vector xs) env st = .ok (.Vector xs) st)
    ∧ (∀ a, evalWithEnv (n + 1) (.Bytevector a) env st = .ok (.Bytevector a) st)
    ∧ (∀ c, evalWithEnv (n + 1) (.Procedure c) env st = .ok (.Procedure c) st)
    ∧ (∀ a, evalWithEnv (n + 1) (.Library a) env st = .ok (.Library a) st)
    ∧ (∀ a, evalWithEnv (n + 1) (.RecordType a) env st = .ok (.RecordType a) st)
    ∧ (∀ a, evalWithEnv (n + 1) (.Record a) env st = .ok (.Record a) st)
    ∧ (∀ a, evalWithEnv (n + 1) (.Environment a) env st
        = .err (.Runtime "Cannot evaluate an environment") st) :=
  ⟨fun _ => rfl, fun _ => rfl, fun _ => rfl, fun _ => rfl, rfl, fun _ => rfl,
   fun _ => rfl, fun _ => rfl, fun _ => rfl, fun _ => rfl, fun _ => rfl,
   fun _ => rfl⟩

/-- Heap for the C6 record scenario: one record type "point" with a
single immutable field "x". -/
def c6State : State := { State.empty with rtypes := [⟨"point", [("x", false)]⟩] }

def c6State1 : State :=
  { c6State with records := [⟨0, [("x", numV 3)]⟩] }

def c6State2 : State :=
  { c6State with records := [⟨0, [("x", numV 3)]⟩, ⟨0, [("x", numV 3)]⟩] }

/-- C6: the claim says `Procedure` equality holds exactly on identity, so
every procedure is `equal?` to itself; but `impl PartialEq for Value`
(value.rs line 249) makes two `Procedure` operands compare unequal even
when they are one and the same object. -/
theorem C6_procedure_self_counterexample :
    valueEq (.Procedure (.native .square)) (.Procedure (.native .square)) = false :=
  rfl

/-- C6 (amended): `Pair`/`Vector` equality is recursive and structural;
`Environment`, `RecordType`, `Record`, `Bytevector` and `Library` compare
by reference identity (in particular each is equal to itself); two records
built by two constructor calls with equal field values are distinct
objects and not equal; but `Procedure` values are NEVER equal, not even
to themselves. -/
theorem C6_equality_semantics :
    (∀ a b : Nat, valueEq (.Environment a) (.Environment b) = (a == b))
    ∧ (∀ a b : Nat, valueEq (.RecordType a) (.RecordType b) = (a == b))
    ∧ (∀ a b : Nat, valueEq (.Record a) (.Record b) = (a == b))
    ∧ (∀ a b : Nat, valueEq (.Bytevector a) (.Bytevector b) = (a == b))
    ∧ (∀ a b : Nat, valueEq (.Library a) (.Library b) = (a == b))
    ∧ (∀ c1 c2, valueEq (.Procedure c1) (.Procedure c2) = false)
    ∧ (∀ a b c d, valueEq (.Pair a b) (.Pair c d) = (valueEq a c && valueEq b d))
    ∧ (∀ xs ys, valueEq (.Vector xs) (.Vector ys) = vListEq xs ys)
    ∧ (∀ x y xs ys, vListEq (x :: xs) (y :: ys) = (valueEq x y && vListEq xs ys))
    ∧ applyClosure 1 (.ctorC 0 ["x"] "make-point") [numV 3] c6State
        = .ok (.Record 0) c6State1
    ∧ applyClosure 1 (.ctorC 0 ["x"] "make-point") [numV 3] c6State1
        = .ok (.Record 1) c6State2
    ∧ (c6State2.getRecord 0).values = (c6State2.getRecord 1).values
    ∧ valueEq (.Record 0) (.Record 1) = false
    ∧ valueEq (.Record 0) (.Record 0) = true :=
  ⟨fun _ _ => rfl, fun _ _ => rfl, fun _ _ => rfl, fun _ _ => rfl,
   fun _ _ => rfl, fun _ _ => rfl, fun _ _ _ _ => rfl, fun _ _ => rfl,
   fun _ _ _ _ => rfl, rfl, rfl, rfl, rfl, rfl⟩

/-- Specification-side view of the positional binding loop: formal `i`
bound to `args[idx + i]`, duplicates overwriting. -/
def zipBindFrom (args : List Value) : List String → Nat → List (String × Value) →
    List (String × Value)
  | [], _, acc => acc
  | nm :: rest, idx, acc =>
      zipBindFrom args rest (idx + 1) (insertA acc nm (args.getD idx .Nil))

/-- What the lambda binding loop does with the parameter-list tail: a bare
rest symbol is bound to `Value.Nil`, `Nil` (or anything else) adds
nothing. -/
def tailBind (tail : Value) (bs : List (String × Value)) : List (String × Value) :=
  match tail with
  | .Symbol r => insertA bs r .Nil
  | _ => bs

/-- The bindings a lambda application ends up with: positional formals,
then the dotted rest symbol (if any) bound to `Value.Nil`. -/
def lambdaBindSpec (ns : List String) (tail : Value) (args : List Value) :
    List (String × Value) :=
  tailBind tail (zipBindFrom args ns 0 [])

theorem mkParams_cons (nm : String) (ns : List String) (tail : Value) :
    mkParams (nm :: ns) tail = .Pair (.Symbol nm) (mkParams ns tail) := rfl

theorem bindParams_enough (args : List Value) (tail : Value)
    (htail : tail = Value.Nil ∨ ∃ r, tail = Value.Symbol r) :
    ∀ (ns : List String) (idx : Nat) (acc : List (String × Value)),
      idx + ns.length ≤ args.length →
      bindParams args (mkParams ns tail) idx acc
        = .ok (tailBind tail (zipBindFrom args ns idx acc))
  | [], idx, acc, _ => by
      rcases htail with h0 | ⟨r, h0⟩ <;> subst h0 <;>
        simp [mkParams, bindParams, zipBindFrom, tailBind]
  | nm :: rest, idx, acc, h => by
      have hlen : ¬ (args.length ≤ idx) := by
        simp only [List.length_cons] at h; omega
      rw [mkParams_cons]
      rw [show bindParams args (.Pair (.Symbol nm) (mkParams rest tail)) idx acc
            = if args.length ≤ idx then
                Except.error ("Too few arguments, expected " ++ toString (idx + 1) ++
                  " got " ++ toString args.length)
              else bindParams args (mkParams rest tail) (idx + 1)
                (insertA acc nm (args.getD idx .Nil)) from rfl]
      rw [if_neg hlen]
      have := bindParams_enough args tail htail rest (idx + 1)
        (insertA acc nm (args.getD idx .Nil))
        (by simp only [List.length_cons] at h; omega)
      rw [this]
      rfl

theorem bindParams_toofew (args : List Value) (tail : Value) :
    ∀ (ns : List String) (idx : Nat) (acc : List (String × Value)),
      idx ≤ args.length → args.length < idx + ns.length →
      bindParams args (mkParams ns tail) idx acc
        = .error ("Too few arguments, expected " ++ toString (args.length + 1) ++
            " got " ++ toString args.length)
  | [], idx, acc, h1, h2 => by simp only [List.length_nil] at h2; omega
  | nm :: rest, idx, acc, h1, h2 => by
      rw [mkParams_cons]
      rw [show bindParams args (.Pair (.Symbol nm) (mkParams rest tail)) idx acc
            = if args.length ≤ idx then
                Except.error ("Too few arguments, expected " ++ toString (idx + 1) ++
                  " got " ++ toString args.length)
              else bindParams args (mkParams rest tail) (idx + 1)
                (insertA acc nm (args.getD idx .Nil)) from rfl]
      by_cases hc : args.length ≤ idx
      · rw [if_pos hc]
        have : idx = args.length := by omega
        rw [this]
      · rw [if_neg hc]
        exact bindParams_toofew args tail rest (idx + 1) _
          (by omega) (by simp only [List.length_cons] at h2; omega)

theorem set_append_length {α : Type} (l : List α) (x y : α) :
    (l ++ [x]).set l.length y = l ++ [y] := by
  induction l with
  | nil => rfl
  | cons a as ih => simp [List.set, ih]

/-- Allocating a fresh environment and then overwriting it with its final
bindings appends the finished environment. -/
theorem allocSet (st : State) (envC : Nat) (bs : List (String × Value)) :
    (({ st with envs := st.envs ++ [(⟨some envC, []⟩ : Environment)] } : State).setEnv
        st.envs.length ⟨some envC, bs⟩)
      = { st with envs := st.envs ++ [(⟨some envC, bs⟩ : Environment)] } := by
  simp only [State.setEnv]
  rw [set_append_length]

/-- The program `((lambda (x . r) r) 1 2 3)`. -/
def c2Program : Value :=
  mkList [Value.Pair (.Symbol "lambda")
            (.Pair (.Pair (.Symbol "x") (.Symbol "r"))
              (.Pair (.Symbol "r") .Nil)),
          numV 1, numV 2, numV 3]

/-- C2: the claim says a dotted rest symbol receives the extra arguments,
so `((lambda (x . r) r) 1 2 3)` should yield the list `(2 3)`; the lambda
closure (special_forms.rs lines 50-54) instead binds the rest symbol to
`Value::Nil`, and the call returns the empty list. -/
theorem C2_rest_counterexample :
    (evalWithEnv 20 c2Program 0 baseState).valueOf = some Value.Nil
    ∧ Value.Nil ≠ mkList [numV 2, numV 3] :=
  ⟨rfl, fun h => Value.noConfusion h⟩

/-- C2 (amended): applying a lambda whose parameter list consists of
symbol formals `ns` with tail `Nil` or a bare rest symbol allocates a
fresh child environment whose parent is the environment captured at
definition time, signals the arity error when fewer arguments than
formals are supplied, binds the formals positionally — the rest symbol,
when present, is bound to `Value.Nil`, NOT to the extra arguments — and
evaluates the body in the new environment. -/
theorem C2_lambda_application (n : Nat) (ns : List String) (tail body : Value)
    (envC : Nat) (args : List Value) (st : State)
    (htail : tail = Value.Nil ∨ ∃ r, tail = Value.Symbol r) :
    (args.length < ns.length →
      applyClosure (n + 1) (.lambdaC (mkParams ns tail) body envC) args st
        = .err ("Too few arguments, expected " ++ toString (args.length + 1) ++
            " got " ++ toString args.length)
            { st with envs := st.envs ++ [(⟨some envC, []⟩ : Environment)] })
    ∧ (ns.length ≤ args.length →
      applyClosure (n + 1) (.lambdaC (mkParams ns tail) body envC) args st
        = match evalWithEnv n body st.envs.length
            { st with envs := st.envs ++
                [(⟨some envC, lambdaBindSpec ns tail args⟩ : Environment)] } with
          | .ok v st3 => .ok v st3
          | .err e st3 => .err e.toMessage st3
          | .timeout => .timeout) := by
  constructor
  · intro hlt
    have hb := bindParams_toofew args tail ns 0 [] (Nat.zero_le _) (by omega)
    show (match bindParams args (mkParams ns tail) 0 [] with
          | .error e => CallRes.err e
              { st with envs := st.envs ++ [(⟨some envC, []⟩ : Environment)] }
          | .ok bs =>
              match evalWithEnv n body st.envs.length
                (({ st with envs := st.envs ++ [(⟨some envC, []⟩ : Environment)] } :
                    State).setEnv st.envs.length ⟨some envC, bs⟩) with
              | .ok v st3 => .ok v st3
              | .err e st3 => .err (LaminaError.toMessage e) st3
              | .timeout => .timeout) = _
    rw [hb]
  · intro hle
    have hb := bindParams_enough args tail htail ns 0 [] (by omega)
    show (match bindParams args (mkParams ns tail) 0 [] with
          | .error e => CallRes.err e
              { st with envs := st.envs ++ [(⟨some envC, []⟩ : Environment)] }
          | .ok bs =>
              match evalWithEnv n body st.envs.length
                (({ st with envs := st.envs ++ [(⟨some envC, []⟩ : Environment)] } :
                    State).setEnv st.envs.length ⟨some envC, bs⟩) with
              | .ok v st3 => .ok v st3
              | .err e st3 => .err (LaminaError.toMessage e) st3
              | .timeout => .timeout) = _
    rw [hb]
    show (match evalWithEnv n body st.envs.length
            (({ st with envs := st.envs ++ [(⟨some envC, []⟩ : Environment)] } :
                State).setEnv st.envs.length
              ⟨some envC, tailBind tail (zipBindFrom args ns 0 [])⟩) with
          | .ok v st3 => CallRes.ok v st3
          | .err e st3 => .err (LaminaError.toMessage e) st3
          | .timeout => .timeout) = _
    rw [allocSet]
    rfl

/-- Closed instance of the amended C2 theorem:
`((lambda (x . r) r) 1 2)` binds `x` to 1 and `r` to `Nil` in the fresh
child of the captured environment and returns `Nil`. -/
theorem C2_lambda_application_witness :
    applyClosure 3 (.lambdaC (mkParams ["x"] (.Symbol "r")) (.Symbol "r") 0)
        [numV 1, numV 2] baseState
      = .ok .Nil { baseState with
          envs := baseState.envs ++
            [(⟨some 0, [("x", numV 1), ("r", .Nil)]⟩ : Environment)] } := by
  have h := (C2_lambda_application 2 ["x"] (.Symbol "r") (.Symbol "r") 0
    [numV 1, numV 2] baseState (Or.inr ⟨"r", rfl⟩)).2 (by decide)
  rw [h]
  rfl

/-- C10: applying a lambda whose parameter list is a proper list of
formals (`Nil` tail) to MORE arguments than formals does not error: the
surplus arguments are dropped and the body runs in the fresh child
environment with only the formals bound. -/
theorem C10_extra_args_ignored (n : Nat) (ns : List String) (body : Value)
    (envC : Nat) (args : List Value) (st : State)
    (h : ns.length < args.length) :
    applyClosure (n + 1) (.lambdaC (mkParams ns .Nil) body envC) args st
      = match evalWithEnv n body st.envs.length
          { st with envs := st.envs ++
              [(⟨some envC, zipBindFrom args ns 0 []⟩ : Environment)] } with
        | .ok v st3 => .ok v st3
        | .err e st3 => .err e.toMessage st3
        | .timeout => .timeout := by
  have hb := bindParams_enough args .Nil (Or.inl rfl) ns 0 [] (by omega)
  show (match bindParams args (mkParams ns .Nil) 0 [] with
        | .error e => CallRes.err e
            { st with envs := st.envs ++ [(⟨some envC, []⟩ : Environment)] }
        | .ok bs =>
            match evalWithEnv n body st.envs.length
              (({ st with envs := st.envs ++ [(⟨some envC, []⟩ : Environment)] } :
                  State).setEnv st.envs.length ⟨some envC, bs⟩) with
            | .ok v st3 => .ok v st3
            | .err e st3 => .err (LaminaError.toMessage e) st3
            | .timeout => .timeout) = _
  rw [hb]
  show (match evalWithEnv n body st.envs.length
          (({ st with envs := st.envs ++ [(⟨some envC, []⟩ : Environment)] } :
              State).setEnv st.envs.length
            ⟨some envC, tailBind .Nil (zipBindFrom args ns 0 [])⟩) with
        | .ok v st3 => CallRes.ok v st3
        | .err e st3 => .err (LaminaError.toMessage e) st3
        | .timeout => .timeout) = _
  rw [allocSet]
  rfl

/-- Closed instance of C10: `((lambda (x) x) 7 8 9)` returns 7, with only
`x` bound. -/
theorem C10_extra_args_ignored_witness :
    applyClosure 3 (.lambdaC (mkParams ["x"] .Nil) (.Symbol "x") 0)
        [numV 7, numV 8, numV 9] baseState
      = .ok (numV 7) { baseState with
          envs := baseState.envs ++ [(⟨some 0, [("x", numV 7)]⟩ : Environment)] } := by
  have h := C10_extra_args_ignored 2 ["x"] (.Symbol "x") 0 [numV 7, numV 8, numV 9]
    baseState (by decide)
  rw [h]
  rfl

/-- The program
`(with-exception-handler (lambda (e) e) (lambda () (raise (quote boom))))`. -/
def c3Program : Value :=
  mkList [Value.Symbol "with-exception-handler",
          mkList [.Symbol "lambda", mkList [.Symbol "e"], .Symbol "e"],
          mkList [.Symbol "lambda", .Nil,
            mkList [.Symbol "raise", mkList [.Symbol "quote", .Symbol "boom"]]]]

/-- C3: the claim says the handler receives the raised object itself, so
the identity handler should return the symbol `boom`; the implementation
(special_forms.rs lines 428-440) instead calls the handler with a fresh
`Symbol` wrapping the stringified error, so the result is the symbol
`Runtime error: Exception: Symbol(boom)`, not `boom`. -/
theorem C3_payload_counterexample :
    (evalWithEnv 30 c3Program 0 baseState).valueOf
      = some (.Symbol "Runtime error: Exception: Symbol(boom)")
    ∧ Value.Symbol "Runtime error: Exception: Symbol(boom)" ≠ .Symbol "boom" :=
  ⟨rfl, by intro h; injection h with h'; exact absurd h' (by decide)⟩

/-- C3 (amended): `with-exception-handler` evaluates the handler and the
thunk and invokes the thunk; when the thunk's application fails with
message `msg`, the handler is invoked with the single argument
`Symbol msg` — the stringified failure, not the raised object — and its
result is returned, while a failing handler propagates its message as a
runtime error; when the thunk is a zero-parameter lambda whose body is
`(raise (quote q))`, that message is
`"Runtime error: " ++ "Exception: " ++ Debug(q)`. -/
theorem C3_handler_invocation (n : Nat) (handlerExpr thunkExpr rest : Value)
    (env : Nat) (st st1 st2 st3 : State) (hc tc : Closure) (msg : String)
    (h1 : evalWithEnv n handlerExpr env st = .ok (.Procedure hc) st1)
    (h2 : evalWithEnv n thunkExpr env st1 = .ok (.Procedure tc) st2)
    (h3 : applyClosure n tc [] st2 = .err msg st3) :
    (evalWEH (n + 1) (.Pair handlerExpr (.Pair thunkExpr rest)) env st
      = match applyClosure n hc [.Symbol msg] st3 with
        | .ok r st4 => .ok r st4
        | .err e2 st4 => .err (.Runtime e2) st4
        | .timeout => .timeout)
    ∧ ∀ (m : Nat) (q : Value) (envL : Nat) (stq : State),
        applyClosure (m + 6) (.lambdaC .Nil
            (mkList [.Symbol "raise", mkList [.Symbol "quote", q]]) envL) [] stq
          = .err ("Runtime error: " ++ ("Exception: " ++
              vDebug { stq with envs := stq.envs ++
                [(⟨some envL, []⟩ : Environment)] } q))
              { stq with envs := stq.envs ++ [(⟨some envL, []⟩ : Environment)] } := by
  constructor
  · simp only [evalWEH, h1, h2, h3]
  · intro m q envL stq
    show (match evalWithEnv (m + 5)
            (mkList [.Symbol "raise", mkList [.Symbol "quote", q]])
            stq.envs.length
            (({ stq with envs := stq.envs ++ [(⟨some envL, []⟩ : Environment)] } :
                State).setEnv stq.envs.length ⟨some envL, []⟩) with
          | .ok v st3 => CallRes.ok v st3
          | .err e st3 => CallRes.err (LaminaError.toMessage e) st3
          | .timeout => CallRes.timeout) = _
    rw [allocSet]
    rfl

/-- Closed instance of the amended C3 theorem, on the program of the
counterexample: the identity handler returns the munged symbol. -/
theorem C3_handler_invocation_witness :
    evalWEH 11
        (.Pair (mkList [.Symbol "lambda", mkList [.Symbol "e"], .Symbol "e"])
          (.Pair (mkList [.Symbol "lambda", .Nil,
              mkList [.Symbol "raise", mkList [.Symbol "quote", .Symbol "boom"]]])
            .Nil)) 0 baseState
      = .ok (.Symbol "Runtime error: Exception: Symbol(boom)")
          { baseState with envs := baseState.envs ++
              [(⟨some 0, []⟩ : Environment),
               (⟨some 0, [("e", .Symbol "Runtime error: Exception: Symbol(boom)")]⟩ :
                 Environment)] } := by
  have h := (C3_handler_invocation 10
    (mkList [.Symbol "lambda", mkList [.Symbol "e"], .Symbol "e"])
    (mkList [.Symbol "lambda", .Nil,
      mkList [.Symbol "raise", mkList [.Symbol "quote", .Symbol "boom"]]])
    .Nil 0 baseState baseState baseState
    { baseState with envs := baseState.envs ++ [(⟨some 0, []⟩ : Environment)] }
    (.lambdaC (.Pair (.Symbol "e") .Nil) (.Symbol "e") 0)
    (.lambdaC .Nil (mkList [.Symbol "raise", mkList [.Symbol "quote", .Symbol "boom"]]) 0)
    "Runtime error: Exception: Symbol(boom)" rfl rfl rfl).1
  rw [h]
  rfl

theorem getD_append_length {α : Type} (l : List α) (x d : α) :
    (l ++ [x]).getD l.length d = x := by
  induction l with
  | nil => rfl
  | cons a as ih => simpa using ih

/-- Allocating a fresh environment and inserting one binding into it. -/
theorem allocInsertBinding (st : State) (p : Option Nat) (k : String) (v : Value) :
    ({ st with envs := st.envs ++ [(⟨p, []⟩ : Environment)] } : State).insertBinding
        st.envs.length k v
      = { st with envs := st.envs ++ [(⟨p, [(k, v)]⟩ : Environment)] } := by
  simp only [State.insertBinding, State.setEnv, State.getEnv]
  rw [getD_append_length]
  rw [set_append_length]
  rfl

/-- The value `eval_guard` binds the guard variable to when the body
fails with a Runtime error carrying message `e`: a `Symbol` holding `e`
with every leading `"Exception: "` stripped. -/
def guardExcVal (e : String) : Value :=
  if strStartsWith e "Exception: " then .Symbol (trimStartMatches "Exception: " e)
  else .Symbol e

/-- The program `(guard (ex ((quote a) (quote b))) (raise (quote boom)))`:
its single clause has the truthy non-boolean test value `a`. -/
def c4Program : Value :=
  mkList [.Symbol "guard",
          mkList [.Symbol "ex",
            mkList [mkList [.Symbol "quote", .Symbol "a"],
                    mkList [.Symbol "quote", .Symbol "b"]]],
          mkList [.Symbol "raise", mkList [.Symbol "quote", .Symbol "boom"]]]

/-- C4: the claim says guard clauses are evaluated like `cond`, where a
truthy non-boolean test selects its clause (here yielding `b`); the
implementation (special_forms.rs lines 558-562) instead rejects any
non-boolean test value with "Guard test must evaluate to a boolean". -/
theorem C4_nonboolean_test_counterexample :
    (evalWithEnv 30 c4Program 0 baseState).errOf
      = some (.Runtime "Guard test must evaluate to a boolean")
    ∧ (evalWithEnv 30 c4Program 0 baseState).valueOf = none :=
  ⟨rfl, rfl⟩

/-- C4 (amended): when the guard body fails, the variable is bound — in a
fresh child environment — to a `Symbol` holding the failure's message
with every leading `"Exception: "` prefix stripped (not the raw payload),
and the clauses are scanned in that environment; unlike `cond`, a clause
test must evaluate to a boolean: `#t` selects the clause, `#f` skips it,
and any other test value is the error "Guard test must evaluate to a
boolean"; a bare `else` symbol clause always matches (evaluating what
follows it); when no clause matches, the bound condition value is
re-raised as an "Unhandled exception" failure. -/
theorem C4_guard_semantics :
    (∀ (n : Nat) (body : Value) (env : Nat) (st : State) (e : String)
        (st' : State) (var : String) (clauses rest2 : Value),
      evalWithEnv n body env st = .err (.Runtime e) st' →
      evalGuard (n + 1) (.Pair (.Pair (.Symbol var) clauses) (.Pair body rest2)) env st
        = evalGuardClauses n clauses st'.envs.length
            { st' with envs := st'.envs ++
                [(⟨some env, [(var, guardExcVal e)]⟩ : Environment)] }
            (guardExcVal e))
    ∧ (∀ (n : Nat) (test expr r2 rest : Value) (genv : Nat) (st st' : State)
          (ev : Value),
        evalWithEnv n test genv st = .ok (.Boolean true) st' →
        evalGuardClauses (n + 1) (.Pair (.Pair test (.Pair expr r2)) rest) genv st ev
          = evalWithEnv n expr genv st')
    ∧ (∀ (n : Nat) (test cr rest : Value) (genv : Nat) (st st' : State) (ev : Value),
        evalWithEnv n test genv st = .ok (.Boolean false) st' →
        evalGuardClauses (n + 1) (.Pair (.Pair test cr) rest) genv st ev
          = evalGuardClauses n rest genv st' ev)
    ∧ (∀ (n : Nat) (test cr rest : Value) (genv : Nat) (st st' : State)
          (ev tv : Value),
        evalWithEnv n test genv st = .ok tv st' →
        (∀ b, tv ≠ .Boolean b) →
        evalGuardClauses (n + 1) (.Pair (.Pair test cr) rest) genv st ev
          = .err (.Runtime "Guard test must evaluate to a boolean") st')
    ∧ (∀ (n : Nat) (genv : Nat) (st : State) (ev : Value),
        evalGuardClauses (n + 1) .Nil genv st ev
          = .err (.Runtime ("Unhandled exception: " ++ vDebug st ev)) st)
    ∧ (∀ (n : Nat) (exprP r2 : Value) (genv : Nat) (st : State) (ev : Value),
        evalGuardClauses (n + 1) (.Pair (.Symbol "else") (.Pair exprP r2)) genv st ev
          = match exprP with
            | .Pair inner _ => evalWithEnv n inner genv st
            | _ => evalWithEnv n exprP genv st) := by
  refine ⟨?_, ?_, ?_, ?_, ?_, ?_⟩
  · intro n body env st e st' var clauses rest2 hb
    simp only [evalGuard, hb, State.allocEnv]
    rw [show (if strStartsWith e "Exception: " = true then
          Value.Symbol (trimStartMatches "Exception: " e)
        else Value.Symbol e) = guardExcVal e from rfl]
    rw [show (({ st' with envs := st'.envs ++ [(⟨some env, []⟩ : Environment)] } :
            State).insertBinding st'.envs.length var (guardExcVal e))
        = { st' with envs := st'.envs ++
            [(⟨some env, [(var, guardExcVal e)]⟩ : Environment)] } from
      allocInsertBinding st' (some env) var (guardExcVal e)]
  · intro n test expr r2 rest genv st st' ev h
    simp only [evalGuardClauses, h]
  · intro n test cr rest genv st st' ev h
    simp only [evalGuardClauses, h]
  · intro n test cr rest genv st st' ev tv h htv
    cases tv <;> first
      | exact absurd rfl (htv _)
      | simp only [evalGuardClauses, h]
  · intro n genv st ev
    rfl
  · intro n exprP r2 genv st ev
    rfl

/-- Closed instance of the amended C4 theorem:
`(guard (ex ((quote #t) ex)) (raise (quote boom)))` binds `ex` to the
symbol `Symbol(boom)` (the Debug-rendered payload, prefix stripped) and
the `#t`-tested clause returns it. -/
theorem C4_guard_semantics_witness :
    evalGuard 11 (.Pair (.Pair (.Symbol "ex")
        (mkList [mkList [mkList [.Symbol "quote", .Boolean true], .Symbol "ex"]]))
        (.Pair (mkList [.Symbol "raise", mkList [.Symbol "quote", .Symbol "boom"]])
          .Nil)) 0 baseState
      = .ok (.Symbol "Symbol(boom)")
          { baseState with envs := baseState.envs ++
              [(⟨some 0, [("ex", .Symbol "Symbol(boom)")]⟩ : Environment)] } := by
  have h := C4_guard_semantics.1 10
    (mkList [.Symbol "raise", mkList [.Symbol "quote", .Symbol "boom"]]) 0 baseState
    "Exception: Symbol(boom)" baseState "ex"
    (mkList [mkList [mkList [.Symbol "quote", .Boolean true], .Symbol "ex"]]) .Nil rfl
  rw [h]
  rfl

theorem bindParamsDefine_enough (args : List Value) (t : Value)
    (ht : ∀ a b, t ≠ Value.Pair a b) :
    ∀ (ns : List String) (idx : Nat) (acc : List (String × Value)),
      idx + ns.length ≤ args.length →
      bindParamsDefine args (mkParams ns t) idx acc
        = .ok (zipBindFrom args ns idx acc)
  | [], idx, acc, _ => by
      cases t <;> first
        | exact absurd rfl (ht _ _)
        | rfl
  | nm :: rest, idx, acc, h => by
      have hlen : ¬ (args.length ≤ idx) := by
        simp only [List.length_cons] at h; omega
      rw [mkParams_cons]
      rw [show bindParamsDefine args (.Pair (.Symbol nm) (mkParams rest t)) idx acc
            = if args.length ≤ idx then
                Except.error ("Too few arguments, expected " ++ toString (idx + 1) ++
                  " got " ++ toString args.length)
              else bindParamsDefine args (mkParams rest t) (idx + 1)
                (insertA acc nm (args.getD idx .Nil)) from rfl]
      rw [if_neg hlen]
      rw [bindParamsDefine_enough args t ht rest (idx + 1)
        (insertA acc nm (args.getD idx .Nil))
        (by simp only [List.length_cons] at h; omega)]
      rfl

theorem bindParamsDefine_toofew (args : List Value) (t : Value) :
    ∀ (ns : List String) (idx : Nat) (acc : List (String × Value)),
      idx ≤ args.length → args.length < idx + ns.length →
      bindParamsDefine args (mkParams ns t) idx acc
        = .error ("Too few arguments, expected " ++ toString (args.length + 1) ++
            " got " ++ toString args.length)
  | [], idx, acc, h1, h2 => by simp only [List.length_nil] at h2; omega
  | nm :: rest, idx, acc, h1, h2 => by
      rw [mkParams_cons]
      rw [show bindParamsDefine args (.Pair (.Symbol nm) (mkParams rest t)) idx acc
            = if args.length ≤ idx then
                Except.error ("Too few arguments, expected " ++ toString (idx + 1) ++
                  " got " ++ toString args.length)
              else bindParamsDefine args (mkParams rest t) (idx + 1)
                (insertA acc nm (args.getD idx .Nil)) from rfl]
      by_cases hc : args.length ≤ idx
      · rw [if_pos hc]
        have : idx = args.length := by omega
        rw [this]
      · rw [if_neg hc]
        exact bindParamsDefine_toofew args t rest (idx + 1) _
          (by omega) (by simp only [List.length_cons] at h2; omega)

/-- The program `(begin (define (f x) x) (f 5))`. -/
def c7SugarProgram : Value :=
  mkList [.Symbol "begin",
          mkList [.Symbol "define", mkList [.Symbol "f", .Symbol "x"], .Symbol "x"],
          mkList [.Symbol "f", numV 5]]

/-- The program `(begin (define f (lambda (x) x)) (f 5))`. -/
def c7LambdaProgram : Value :=
  mkList [.Symbol "begin",
          mkList [.Symbol "define", .Symbol "f",
            mkList [.Symbol "lambda", mkList [.Symbol "x"], .Symbol "x"]],
          mkList [.Symbol "f", numV 5]]

/-- C7: the claim says `(define (f x) x)` binds the same procedure as
`(define f (lambda (x) x))`; but the sugar closure (special_forms.rs
line 116/146) stores and evaluates the WHOLE body list `(x)` as one
expression, so `(f 5)` applies the number 5 and fails with
"Not a procedure", while the lambda form returns 5. -/
theorem C7_define_sugar_counterexample :
    (evalWithEnv 30 c7SugarProgram 0 baseState).errOf
      = some (.Runtime "Runtime error: Not a procedure")
    ∧ (evalWithEnv 30 c7LambdaProgram 0 baseState).valueOf = some (numV 5) :=
  ⟨rfl, rfl⟩

/-- C7 (amended): `(define (name . params) body...)` binds `name` to a
`defineC` closure over `params`, the ENTIRE remaining list of body forms,
and the defining environment; applying that closure allocates a fresh
child of the defining environment, binds the formals positionally with
the same too-few-arguments error as `lambda`, does NOT bind a dotted
rest symbol at all, and evaluates the whole body list as a single
expression there — so it is not equivalent to binding
`(lambda params body)`, which evaluates only the first body form. -/
theorem C7_define_sugar_semantics :
    (∀ (n : Nat) (name : String) (params bodyRest : Value) (env : Nat) (st : State),
      evalDefine (n + 1) (.Pair (.Pair (.Symbol name) params) bodyRest) env st
        = .ok .Nil (st.insertBinding env name
            (.Procedure (.defineC params bodyRest env))))
    ∧ (∀ (n : Nat) (ns : List String) (t body : Value) (envC : Nat)
          (args : List Value) (st : State),
        (∀ a b, t ≠ Value.Pair a b) →
        (args.length < ns.length →
          applyClosure (n + 1) (.defineC (mkParams ns t) body envC) args st
            = .err ("Too few arguments, expected " ++ toString (args.length + 1) ++
                " got " ++ toString args.length)
                { st with envs := st.envs ++ [(⟨some envC, []⟩ : Environment)] })
        ∧ (ns.length ≤ args.length →
          applyClosure (n + 1) (.defineC (mkParams ns t) body envC) args st
            = match evalWithEnv n body st.envs.length
                { st with envs := st.envs ++
                    [(⟨some envC, zipBindFrom args ns 0 []⟩ : Environment)] } with
              | .ok v st3 => .ok v st3
              | .err e st3 => .err e.toMessage st3
              | .timeout => .timeout)) := by
  constructor
  · intro n name params bodyRest env st
    rfl
  · intro n ns t body envC args st ht
    constructor
    · intro hlt
      have hb := bindParamsDefine_toofew args t ns 0 [] (Nat.zero_le _) (by omega)
      show (match bindParamsDefine args (mkParams ns t) 0 [] with
            | .error e => CallRes.err e
                { st with envs := st.envs ++ [(⟨some envC, []⟩ : Environment)] }
            | .ok bs =>
                match evalWithEnv n body st.envs.length
                  (({ st with envs := st.envs ++ [(⟨some envC, []⟩ : Environment)] } :
                      State).setEnv st.envs.length ⟨some envC, bs⟩) with
                | .ok v st3 => .ok v st3
                | .err e st3 => .err (LaminaError.toMessage e) st3
                | .timeout => .timeout) = _
      rw [hb]
    · intro hle
      have hb := bindParamsDefine_enough args t ht ns 0 [] (by omega)
      show (match bindParamsDefine args (mkParams ns t) 0 [] with
            | .error e => CallRes.err e
                { st with envs := st.envs ++ [(⟨some envC, []⟩ : Environment)] }
            | .ok bs =>
                match evalWithEnv n body st.envs.length
                  (({ st with envs := st.envs ++ [(⟨some envC, []⟩ : Environment)] } :
                      State).setEnv st.envs.length ⟨some envC, bs⟩) with
                | .ok v st3 => .ok v st3
                | .err e st3 => .err (LaminaError.toMessage e) st3
                | .timeout => .timeout) = _
      rw [hb]
      show (match evalWithEnv n body st.envs.length
              (({ st with envs := st.envs ++ [(⟨some envC, []⟩ : Environment)] } :
                  State).setEnv st.envs.length
                ⟨some envC, zipBindFrom args ns 0 []⟩) with
            | .ok v st3 => CallRes.ok v st3
            | .err e st3 => .err (LaminaError.toMessage e) st3
            | .timeout => .timeout) = _
      rw [allocSet]

/-- Closed instance of the amended C7 theorem: the closure stored by
`(define (f x) x)` applied to 5 evaluates the body list `(x)` as an
application of 5 and fails with "Not a procedure". -/
theorem C7_define_sugar_semantics_witness :
    applyClosure 12 (.defineC (mkParams ["x"] .Nil) (.Pair (.Symbol "x") .Nil) 0)
        [numV 5] baseState
      = .err "Runtime error: Not a procedure"
          { baseState with envs := baseState.envs ++
              [(⟨some 0, [("x", numV 5)]⟩ : Environment)] } := by
  have h := ((C7_define_sugar_semantics).2 11 ["x"] .Nil (.Pair (.Symbol "x") .Nil) 0
    [numV 5] baseState (fun a b h => Value.noConfusion h)).2 (by decide)
  rw [h]
  rfl

theorem lookupA_insertA_self {β : Type} (m : List (String × β)) (k : String) (v : β) :
    lookupA (insertA m k v) k = some v := by
  induction m with
  | nil => simp [insertA, lookupA]
  | cons p rest ih =>
      by_cases h : p.1 = k
      · simp [insertA, lookupA, h]
      · simp [insertA, lookupA, h, ih]

theorem lookupA_insertA_ne {β : Type} (m : List (String × β)) (k k' : String) (v : β)
    (h : k' ≠ k) :
    lookupA (insertA m k v) k' = lookupA m k' := by
  induction m with
  | nil => simp [insertA, lookupA, Ne.symm h]
  | cons p rest ih =>
      obtain ⟨pk, pv⟩ := p
      by_cases hp : pk = k
      · subst hp
        simp [insertA, lookupA, Ne.symm h]
      · simp only [insertA, if_neg hp, lookupA]
        by_cases hq : pk = k'
        · simp [hq]
        · simp [hq, ih]

theorem getD_set_self {α : Type} (l : List α) (i : Nat) (x d : α) (h : i < l.length) :
    (l.set i x).getD i d = x := by
  induction l generalizing i with
  | nil => simp at h
  | cons a as ih =>
      cases i with
      | zero => rfl
      | succ j => simpa using ih j (by simpa using h)

theorem getD_set_ne {α : Type} (l : List α) (i j : Nat) (x d : α) (h : i ≠ j) :
    (l.set i x).getD j d = l.getD j d := by
  induction l generalizing i j with
  | nil => rfl
  | cons a as ih =>
      cases i with
      | zero =>
          cases j with
          | zero => exact absurd rfl h
          | succ j' => rfl
      | succ i' =>
          cases j with
          | zero => rfl
          | succ j' => simpa using ih i' j' (by omega)

theorem envs_length_insertBinding (st : State) (a : Nat) (k : String) (v : Value) :
    (st.insertBinding a k v).envs.length = st.envs.length := by
  simp [State.insertBinding, State.setEnv]

theorem getEnv_insertBinding_ne (st : State) (a b : Nat) (k : String) (v : Value)
    (h : a ≠ b) :
    (st.insertBinding a k v).getEnv b = st.getEnv b := by
  simp only [State.insertBinding, State.setEnv, State.getEnv]
  exact getD_set_ne _ _ _ _ _ h

theorem lookup_insertBinding_self (st : State) (a : Nat) (k : String) (v : Value)
    (h : a < st.envs.length) :
    lookupA ((st.insertBinding a k v).getEnv a).bindings k = some v := by
  simp only [State.insertBinding, State.setEnv, State.getEnv]
  rw [getD_set_self _ _ _ _ (by simpa using h)]
  exact lookupA_insertA_self _ _ _

theorem set_oob {α : Type} (l : List α) (i : Nat) (x : α) (h : l.length ≤ i) :
    l.set i x = l := by
  induction l generalizing i with
  | nil => rfl
  | cons a as ih =>
      cases i with
      | zero => simp at h
      | succ j => simpa using ih j (by simpa using h)

theorem lookup_insertBinding_other (st : State) (a : Nat) (k nm : String) (v : Value)
    (h : nm ≠ k) :
    lookupA ((st.insertBinding a nm v).getEnv a).bindings k
      = lookupA (st.getEnv a).bindings k := by
  by_cases ha : a < st.envs.length
  · simp only [State.insertBinding, State.setEnv, State.getEnv]
    rw [getD_set_self _ _ _ _ (by simpa using ha)]
    exact lookupA_insertA_ne _ _ _ _ (Ne.symm h)
  · simp only [State.insertBinding, State.setEnv, State.getEnv]
    rw [set_oob _ _ _ (by omega)]

/-- `true` iff the value is a `Record` whose type's NAME equals `tn` —
the membership test the generated record predicate implements. -/
def isRecordOfTypeName (st : State) (v : Value) (tn : String) : Bool :=
  match v with
  | .Record r => (st.getRT (st.getRecord r).type_info).name == tn
  | _ => false

theorem lookup_accessor_fold (tn : String) (env : Nat) (k : String) :
    ∀ (specs : List (String × String × Option String)) (st : State),
      k ∉ specs.map (fun s => s.2.1) →
      lookupA (((specs.foldl (fun acc s => acc.insertBinding env s.2.1
          (.Procedure (.accessorC s.1 tn s.2.1))) st).getEnv env)).bindings k
        = lookupA (st.getEnv env).bindings k
  | [], st, _ => rfl
  | s :: rest, st, h => by
      have h1 : s.2.1 ≠ k := fun hh => h (by simp [hh])
      have h2 : k ∉ rest.map (fun s => s.2.1) := fun hh => h (by simp [hh])
      rw [show (s :: rest).foldl (fun acc s => acc.insertBinding env s.2.1
            (.Procedure (.accessorC s.1 tn s.2.1))) st
          = rest.foldl (fun acc s => acc.insertBinding env s.2.1
              (.Procedure (.accessorC s.1 tn s.2.1)))
              (st.insertBinding env s.2.1 (.Procedure (.accessorC s.1 tn s.2.1)))
          from rfl]
      rw [lookup_accessor_fold tn env k rest _ h2]
      exact lookup_insertBinding_other _ _ _ _ _ h1

theorem lookup_mutator_fold (tn : String) (env : Nat) (k : String) :
    ∀ (specs : List (String × String × Option String)) (st : State),
      k ∉ specs.filterMap (fun s => s.2.2) →
      lookupA (((specs.foldl (fun acc s =>
          match s.2.2 with
          | some m => acc.insertBinding env m (.Procedure (.mutatorC s.1 tn m))
          | none => acc) st).getEnv env)).bindings k
        = lookupA (st.getEnv env).bindings k
  | [], st, _ => rfl
  | s :: rest, st, h => by
      have h2 : k ∉ rest.filterMap (fun s => s.2.2) := by
        intro hh
        exact h (by simp only [List.filterMap_cons]; cases s.2.2 <;> simp [hh])
      rw [show (s :: rest).foldl (fun acc s =>
            match s.2.2 with
            | some m => acc.insertBinding env m (.Procedure (.mutatorC s.1 tn m))
            | none => acc) st
          = rest.foldl (fun acc s =>
              match s.2.2 with
              | some m => acc.insertBinding env m (.Procedure (.mutatorC s.1 tn m))
              | none => acc)
              (match s.2.2 with
               | some m => st.insertBinding env m (.Procedure (.mutatorC s.1 tn m))
               | none => st) from rfl]
      rw [lookup_mutator_fold tn env k rest _ h2]
      cases hm : s.2.2 with
      | none => rfl
      | some m =>
          have h1 : m ≠ k := by
            intro hh
            exact h (by simp [List.filterMap_cons, hm, hh])
          exact lookup_insertBinding_other _ _ _ _ _ h1

/-- The form `(point (make-point x) point? ((x point-x)))` handed to
`define-record-type`. -/
def c9Form : Value :=
  .Pair (.Symbol "point")
    (.Pair (.Pair (.Symbol "make-point") (mkList [.Symbol "x"]))
      (.Pair (.Symbol "point?")
        (mkList [mkList [.Symbol "x", .Symbol "point-x"]])))

/-- Extract the binding a successful `define-record-type` evaluation left
under `k` in environment `env`. -/
def bindingAfter (res : EvalRes) (env : Nat) (k : String) : Option Value :=
  match res with
  | .ok _ stF => lookupA (stF.getEnv env).bindings k
  | _ => none

/-- C9: `define-record-type` binds the predicate name to a procedure
capturing the record type's NAME; applied to one argument that procedure
returns `#t` exactly when the argument is a `Record` whose type name
equals the defined type's name, and returns `#f` — never an error — for
every other argument, including records of unrelated types. -/
theorem C9_record_predicate :
    (∀ (n : Nat) (tn pn : String) (st : State) (v : Value),
      applyClosure (n + 1) (.predC tn pn) [v] st
        = .ok (.Boolean (isRecordOfTypeName st v tn)) st)
    ∧ (∀ (st : State) (v : Value) (tn : String),
        isRecordOfTypeName st v tn = true
          ↔ ∃ r, v = .Record r ∧ (st.getRT (st.getRecord r).type_info).name = tn)
    ∧ (∀ (env : Nat) (st : State) (typeName ctorName predN : String)
          (ctorParams specsV : Value) (cf : List String)
          (specs : List (String × String × Option String)),
        env < st.envs.length →
        collectCtorFields ctorParams = .ok cf →
        collectFieldSpecs specsV = .ok specs →
        predN ∉ specs.map (fun s => s.2.1) →
        predN ∉ specs.filterMap (fun s => s.2.2) →
        bindingAfter
          (evalDefineRecordType
            (.Pair (.Symbol typeName)
              (.Pair (.Pair (.Symbol ctorName) ctorParams)
                (.Pair (.Symbol predN) specsV))) env st)
          env predN
          = some (.Procedure (.predC typeName predN))) := by
  refine ⟨?_, ?_, ?_⟩
  · intro n tn pn st v
    cases v <;> rfl
  · intro st v tn
    constructor
    · intro hEq
      cases v with
      | Record r =>
          exact ⟨r, rfl, by simpa [isRecordOfTypeName] using hEq⟩
      | Nil => simp [isRecordOfTypeName] at hEq
      | Boolean b => simp [isRecordOfTypeName] at hEq
      | Number k => simp [isRecordOfTypeName] at hEq
      | Character c => simp [isRecordOfTypeName] at hEq
      | Str s => simp [isRecordOfTypeName] at hEq
      | Symbol s => simp [isRecordOfTypeName] at hEq
      | Pair a b => simp [isRecordOfTypeName] at hEq
      | Vector xs => simp [isRecordOfTypeName] at hEq
      | Procedure c => simp [isRecordOfTypeName] at hEq
      | Environment e => simp [isRecordOfTypeName] at hEq
      | RecordType rt => simp [isRecordOfTypeName] at hEq
      | Bytevector b => simp [isRecordOfTypeName] at hEq
      | Library l => simp [isRecordOfTypeName] at hEq
      | RustFn c nm => simp [isRecordOfTypeName] at hEq
    · rintro ⟨r, rfl, h⟩
      simp [isRecordOfTypeName, h]
  · intro env st typeName ctorName predN ctorParams specsV cf specs
      henv hcf hsp hacc hmut
    rw [show evalDefineRecordType
          (.Pair (.Symbol typeName)
            (.Pair (.Pair (.Symbol ctorName) ctorParams)
              (.Pair (.Symbol predN) specsV))) env st
        = (match collectCtorFields ctorParams with
           | .error e => EvalRes.err e st
           | .ok ctorFields =>
              match collectFieldSpecs specsV with
              | .error e => EvalRes.err e st
              | .ok specs' =>
                  let rt : RecordType :=
                    ⟨typeName, specs'.map (fun s => (s.1, s.2.2.isSome))⟩
                  let p := st.allocRT rt
                  let st2 := p.2.insertBinding env typeName (.RecordType p.1)
                  let st3 := st2.insertBinding env ctorName
                    (.Procedure (.ctorC p.1 ctorFields ctorName))
                  let st4 := st3.insertBinding env predN
                    (.Procedure (.predC typeName predN))
                  let st5 := specs'.foldl
                    (fun acc s => acc.insertBinding env s.2.1
                      (.Procedure (.accessorC s.1 typeName s.2.1)))
                    st4
                  let st6 := specs'.foldl
                    (fun acc s =>
                      match s.2.2 with
                      | some m => acc.insertBinding env m
                          (.Procedure (.mutatorC s.1 typeName m))
                      | none => acc)
                    st5
                  .ok .Nil st6) from rfl]
    rw [hcf, hsp]
    simp only [bindingAfter]
    rw [lookup_mutator_fold typeName env predN specs _ hmut]
    rw [lookup_accessor_fold typeName env predN specs _ hacc]
    apply lookup_insertBinding_self
    rw [envs_length_insertBinding, envs_length_insertBinding]
    simpa [State.allocRT] using henv

/-- Closed instance of C9 on the `point` record type: the predicate is
installed and answers `#t` on a `point` record and `#f` on a number. -/
theorem C9_record_predicate_witness :
    bindingAfter (evalDefineRecordType c9Form 0 baseState) 0 "point?"
      = some (.Procedure (.predC "point" "point?"))
    ∧ applyClosure 1 (.predC "point" "point?") [.Record 0] c6State1
        = .ok (.Boolean true) c6State1
    ∧ applyClosure 1 (.predC "point" "point?") [numV 42] c6State1
        = .ok (.Boolean false) c6State1 := by
  refine ⟨?_, ?_, ?_⟩
  · exact C9_record_predicate.2.2 0 baseState "point" "make-point" "point?"
      (mkList [.Symbol "x"]) (mkList [mkList [.Symbol "x", .Symbol "point-x"]])
      ["x"] [("x", "point-x", none)] (by decide) rfl rfl (by decide) (by decide)
  · exact C9_record_predicate.1 0 "point" "point?" c6State1 (.Record 0)
  · exact C9_record_predicate.1 0 "point" "point?" c6State1 (numV 42)

theorem getD_oob {α : Type} (l : List α) (i : Nat) (d : α) (h : l.length ≤ i) :
    l.getD i d = d := by
  induction l generalizing i with
  | nil => cases i <;> rfl
  | cons a as ih =>
      cases i with
      | zero => simp at h
      | succ j => simpa using ih j (by simpa using h)

/-- The sequence of environment addresses the `set!` walk visits, fuelled
like the walk itself. -/
def envChain : Nat → State → Nat → List Nat
  | 0, _, _ => []
  | f + 1, st, a =>
      a :: (match (st.getEnv a).parent with
            | some p => envChain f st p
            | none => [])

theorem findSetTargetF_find :
    ∀ (f : Nat) (st : State) (a : Nat) (name : String) (r : Option Nat),
      findSetTargetF f st a name = some r →
      (envChain f st a).find? (fun e => containsA (st.getEnv e).bindings name) = r
  | 0, _, _, _, _, h => by simp [findSetTargetF] at h
  | f + 1, st, a, name, r, h => by
      rw [show findSetTargetF (f + 1) st a name
            = (if containsA (st.getEnv a).bindings name then some (some a)
               else match (st.getEnv a).parent with
                    | some p => findSetTargetF f st p name
                    | none => some none) from rfl] at h
      by_cases hc : containsA (st.getEnv a).bindings name = true
      · rw [if_pos hc] at h
        injection h with h'
        subst h'
        simp [envChain, List.find?, hc]
      · rw [if_neg (by simpa using hc)] at h
        cases hp : (st.getEnv a).parent with
        | some p =>
            rw [hp] at h
            have ih := findSetTargetF_find f st p name r h
            simp only [envChain, hp, List.find?]
            rw [show containsA (st.getEnv a).bindings name = false by simpa using hc]
            exact ih
        | none =>
            rw [hp] at h
            injection h with h'
            subst h'
            simp only [envChain, hp, List.find?]
            rw [show containsA (st.getEnv a).bindings name = false by simpa using hc]

theorem findSetTargetF_contains :
    ∀ (f : Nat) (st : State) (a : Nat) (name : String) (tgt : Nat),
      findSetTargetF f st a name = some (some tgt) →
      containsA (st.getEnv tgt).bindings name = true
  | 0, _, _, _, _, h => by simp [findSetTargetF] at h
  | f + 1, st, a, name, tgt, h => by
      rw [show findSetTargetF (f + 1) st a name
            = (if containsA (st.getEnv a).bindings name then some (some a)
               else match (st.getEnv a).parent with
                    | some p => findSetTargetF f st p name
                    | none => some none) from rfl] at h
      by_cases hc : containsA (st.getEnv a).bindings name = true
      · rw [if_pos hc] at h
        injection h with h'
        injection h' with h''
        subst h''
        exact hc
      · rw [if_neg (by simpa using hc)] at h
        cases hp : (st.getEnv a).parent with
        | some p =>
            rw [hp] at h
            exact findSetTargetF_contains f st p name tgt h
        | none =>
            rw [hp] at h
            injection h with h'
            exact absurd h' (by simp)

theorem contains_in_range (st : State) (a : Nat) (k : String)
    (h : containsA (st.getEnv a).bindings k = true) : a < st.envs.length := by
  by_contra hge
  have hd : st.getEnv a = (⟨none, []⟩ : Environment) := by
    simp only [State.getEnv]
    exact getD_oob _ _ _ (by omega)
  rw [hd] at h
  simp [containsA, lookupA] at h

/-- C1: evaluating `(set! name expr)` first evaluates `expr`, then walks
outward from the innermost environment; the FIRST environment on that
walk whose own table contains `name` (the `find?` over the visited chain)
gets its binding for `name` overwritten with the value — every other
environment, and every other key of the target environment, is untouched
— and the form yields `Nil`; if the walk exhausts the chain without
finding the name, the form fails with the unbound-variable error. -/
theorem C1_set_semantics (j : Nat) (name : String) (expr : Value) (env : Nat)
    (st st' : State) (v : Value) (r : Option Nat)
    (h1 : evalWithEnv j expr env st = .ok v st')
    (h2 : findSetTargetF (j + 1) st' env name = some r) :
    (∀ tgt, r = some tgt →
      evalWithEnv (j + 3) (mkList [.Symbol "set!", .Symbol name, expr]) env st
        = .ok .Nil (st'.insertBinding tgt name v)
      ∧ (envChain (j + 1) st' env).find?
          (fun e => containsA (st'.getEnv e).bindings name) = some tgt
      ∧ containsA (st'.getEnv tgt).bindings name = true
      ∧ lookupA ((st'.insertBinding tgt name v).getEnv tgt).bindings name = some v
      ∧ (∀ a, a ≠ tgt → (st'.insertBinding tgt name v).getEnv a = st'.getEnv a)
      ∧ (∀ k, k ≠ name →
          lookupA ((st'.insertBinding tgt name v).getEnv tgt).bindings k
            = lookupA (st'.getEnv tgt).bindings k))
    ∧ (r = none →
      evalWithEnv (j + 3) (mkList [.Symbol "set!", .Symbol name, expr]) env st
        = .err (.Runtime ("Undefined variable: " ++ name)) st') := by
  have hdisp : evalWithEnv (j + 3) (mkList [.Symbol "set!", .Symbol name, expr]) env st
      = evalSet (j + 1) (.Pair (.Symbol name) (.Pair expr .Nil)) env st := rfl
  constructor
  · intro tgt htgt
    subst htgt
    have hcont := findSetTargetF_contains (j + 1) st' env name tgt h2
    refine ⟨?_, findSetTargetF_find (j + 1) st' env name _ h2, hcont, ?_, ?_, ?_⟩
    · rw [hdisp]
      simp only [evalSet, h1, h2]
    · exact lookup_insertBinding_self st' tgt name v (contains_in_range st' tgt name hcont)
    · intro a ha
      exact getEnv_insertBinding_ne st' tgt a name v (Ne.symm ha)
    · intro k hk
      exact lookup_insertBinding_other st' tgt k name v (Ne.symm hk)
  · intro hnone
    subst hnone
    rw [hdisp]
    simp only [evalSet, h1, h2]

/-- Heap for the C1 witness: a global environment binding `x`, and an
empty child environment. -/
def c1State : State :=
  { State.empty with envs := [⟨none, [("x", numV 1)]⟩, ⟨some 0, []⟩] }

/-- Closed instance of C1: `(set! x (quote 42))` evaluated in the child
environment mutates the binding in the global environment. -/
theorem C1_set_semantics_witness :
    evalWithEnv 5 (mkList [.Symbol "set!", .Symbol "x",
        mkList [.Symbol "quote", numV 42]]) 1 c1State
      = .ok .Nil { c1State with envs := [⟨none, [("x", numV 42)]⟩, ⟨some 0, []⟩] } := by
  have h := ((C1_set_semantics 2 "x" (mkList [.Symbol "quote", numV 42]) 1 c1State
    c1State (numV 42) (some 0) rfl rfl).1 0 rfl).1
  rw [h]
  rfl

/-- The program
`(begin (define-library (example math) (export square)
          (begin (define square (quote 42))))
        (import (example math)))`. -/
def c8Program : Value :=
  mkList [.Symbol "begin",
    mkList [.Symbol "define-library", mkList [.Symbol "example", .Symbol "math"],
      mkList [.Symbol "export", .Symbol "square"],
      mkList [.Symbol "begin",
        mkList [.Symbol "define", .Symbol "square", mkList [.Symbol "quote", numV 42]]]],
    mkList [.Symbol "import", mkList [.Symbol "example", .Symbol "math"]]]

/-- C8: the claim says import copies exactly the library's exported
names' current bindings; but `import_library_bindings` (libraries.rs
lines 264-308) special-cases the library name `(example math)` and
installs a synthesized native `square` procedure, even though the
library's own current binding for `square` is the number 42. -/
theorem C8_hardcoded_counterexample :
    (evalWithEnv 40 c8Program 0 baseState).valueOf = some Value.Nil
    ∧ ((evalWithEnv 40 c8Program 0 baseState).stateOf.map
        (fun stF => lookupA (stF.getEnv 0).bindings "square"))
        = some (some (.Procedure (.native .square)))
    ∧ ((evalWithEnv 40 c8Program 0 baseState).stateOf.map
        (fun stF => lookupA (stF.getEnv 1).bindings "square"))
        = some (some (numV 42))
    ∧ Value.Procedure (.native .square) ≠ numV 42 :=
  ⟨rfl, rfl, rfl, fun h => Value.noConfusion h⟩

theorem copyExports_getEnv_other :
    ∀ (exports : List String) (st : State) (libEnv target a : Nat),
      a ≠ target →
      (copyExports st libEnv exports target).getEnv a = st.getEnv a
  | [], _, _, _, _, _ => rfl
  | e :: rest, st, libEnv, target, a, h => by
      rw [show copyExports st libEnv (e :: rest) target
            = (match lookupA (st.getEnv libEnv).bindings e with
               | some v => copyExports (st.insertBinding target e v) libEnv rest target
               | none => copyExports st libEnv rest target) from rfl]
      cases hl : lookupA (st.getEnv libEnv).bindings e with
      | some w =>
          rw [copyExports_getEnv_other rest _ libEnv target a h]
          exact getEnv_insertBinding_ne _ _ _ _ _ (Ne.symm h)
      | none => exact copyExports_getEnv_other rest st libEnv target a h

theorem copyExports_not_exported :
    ∀ (exports : List String) (st : State) (libEnv target : Nat) (k : String),
      k ∉ exports →
      lookupA ((copyExports st libEnv exports target).getEnv target).bindings k
        = lookupA (st.getEnv target).bindings k
  | [], _, _, _, _, _ => rfl
  | e :: rest, st, libEnv, target, k, h => by
      have hke : e ≠ k := fun hh => h (by simp [hh])
      have hkr : k ∉ rest := fun hh => h (by simp [hh])
      rw [show copyExports st libEnv (e :: rest) target
            = (match lookupA (st.getEnv libEnv).bindings e with
               | some v => copyExports (st.insertBinding target e v) libEnv rest target
               | none => copyExports st libEnv rest target) from rfl]
      cases hl : lookupA (st.getEnv libEnv).bindings e with
      | some w =>
          rw [copyExports_not_exported rest _ libEnv target k hkr]
          exact lookup_insertBinding_other _ _ _ _ _ hke
      | none => exact copyExports_not_exported rest st libEnv target k hkr

theorem copyExports_copies :
    ∀ (exports : List String) (st : State) (libEnv target : Nat) (k : String)
      (v : Value),
      target ≠ libEnv → target < st.envs.length → k ∈ exports →
      lookupA (st.getEnv libEnv).bindings k = some v →
      lookupA ((copyExports st libEnv exports target).getEnv target).bindings k
        = some v
  | [], _, _, _, _, _, _, _, hk, _ => absurd hk (List.not_mem_nil _)
  | e :: rest, st, libEnv, target, k, v, hne, hlt, hk, hv => by
      rw [show copyExports st libEnv (e :: rest) target
            = (match lookupA (st.getEnv libEnv).bindings e with
               | some v => copyExports (st.insertBinding target e v) libEnv rest target
               | none => copyExports st libEnv rest target) from rfl]
      by_cases hek : e = k
      · subst hek
        rw [hv]
        by_cases hkr : e ∈ rest
        · apply copyExports_copies rest _ libEnv target e v hne
            (by rw [envs_length_insertBinding]; exact hlt) hkr
          rw [getEnv_insertBinding_ne _ _ _ _ _ hne]
          exact hv
        · rw [copyExports_not_exported rest _ libEnv target e hkr]
          exact lookup_insertBinding_self st target e v hlt
      · have hkr : k ∈ rest := by
          cases hk with
          | head => exact absurd rfl hek
          | tail _ hh => exact hh
        cases hl : lookupA (st.getEnv libEnv).bindings e with
        | some w =>
            apply copyExports_copies rest _ libEnv target k v hne
              (by rw [envs_length_insertBinding]; exact hlt) hkr
            rw [getEnv_insertBinding_ne _ _ _ _ _ hne]
            exact hv
        | none => exact copyExports_copies rest st libEnv target k v hne hlt hkr hv

/-- C8 (amended): for a registered library whose dotted name is NOT one
of the five hardcoded `(example ...)` names, import falls through to the
generic loop, which copies each exported name's current binding from the
library environment into the importing environment (silently skipping
exported names with no binding); names not listed in the exports are not
bound by the import, so — when absent from the importer's chain —
referring to them still fails with an unbound-variable error; but for the
hardcoded names, e.g. `(example math)`, import instead installs
predefined native procedures for the exported names, ignoring the
library's own bindings. -/
theorem C8_import_semantics :
    (∀ (st : State) (lib target : Nat),
      (st.getLib lib).name = ["example", "math"] →
      importLibraryBindings st lib target
        = insertNative (insertNative st target (st.getLib lib).exports "square"
            .square) target (st.getLib lib).exports "cube" .cube)
    ∧ (∀ (st : State) (lib target : Nat),
        (st.getLib lib).name ∉ [["example", "math"], ["example", "list"],
          ["example", "private"], ["example", "derived"], ["example", "base"]] →
        importLibraryBindings st lib target
          = copyExports st (st.getLib lib).environment (st.getLib lib).exports target)
    ∧ (∀ (exports : List String) (st : State) (libEnv target : Nat) (k : String)
          (v : Value),
        target ≠ libEnv → target < st.envs.length → k ∈ exports →
        lookupA (st.getEnv libEnv).bindings k = some v →
        lookupA ((copyExports st libEnv exports target).getEnv target).bindings k
          = some v)
    ∧ (∀ (exports : List String) (st : State) (libEnv target : Nat) (k : String),
        k ∉ exports →
        lookupA ((copyExports st libEnv exports target).getEnv target).bindings k
          = lookupA (st.getEnv target).bindings k)
    ∧ (∀ (exports : List String) (st : State) (libEnv target a : Nat),
        a ≠ target →
        (copyExports st libEnv exports target).getEnv a = st.getEnv a)
    ∧ (∀ (n : Nat) (s : String) (env : Nat) (st : State),
        lookupVariableF (n + 1) st env s = some none →
        evalWithEnv (n + 1) (.Symbol s) env st
          = .err (.Runtime ("Undefined variable: " ++ s)) st) := by
  refine ⟨?_, ?_, copyExports_copies, copyExports_not_exported,
    copyExports_getEnv_other, ?_⟩
  · intro st lib target h
    simp only [importLibraryBindings, h]
    rfl
  · intro st lib target h
    simp only [List.mem_cons, List.not_mem_nil, or_false, not_or] at h
    obtain ⟨h1, h2, h3, h4, h5⟩ := h
    simp only [importLibraryBindings, if_neg h1, if_neg h2, if_neg h3, if_neg h4,
      if_neg h5]
  · intro n s env st h
    simp only [evalWithEnv, h]

/-- Heap for the C8 witness: importer environment 0 and a library
environment 1 binding both `pub` and `priv`. -/
def c8WState : State :=
  { State.empty with
    envs := [⟨none, []⟩, ⟨some 0, [("pub", numV 7), ("priv", numV 8)]⟩] }

/-- Closed instance of the amended C8 theorem: importing the exports
`[pub]` from the library environment copies `pub` (value 7) into the
importer, leaves `priv` unbound there, and a later reference to `priv`
from an environment without it fails with the unbound-variable error. -/
theorem C8_import_semantics_witness :
    lookupA ((copyExports c8WState 1 ["pub"] 0).getEnv 0).bindings "pub"
      = some (numV 7)
    ∧ lookupA ((copyExports c8WState 1 ["pub"] 0).getEnv 0).bindings "priv"
        = lookupA (c8WState.getEnv 0).bindings "priv"
    ∧ evalWithEnv 3 (.Symbol "priv") 0
        { State.empty with envs := [⟨none, [("pub", numV 7)]⟩] }
        = .err (.Runtime ("Undefined variable: " ++ "priv"))
          { State.empty with envs := [⟨none, [("pub", numV 7)]⟩] } := by
  refine ⟨?_, ?_, ?_⟩
  · exact C8_import_semantics.2.2.1 ["pub"] c8WState 1 0 "pub" (numV 7)
      (by decide) (by decide) (by decide) rfl
  · exact C8_import_semantics.2.2.2.1 ["pub"] c8WState 1 0 "priv" (by decide)
  · exact C8_import_semantics.2.2.2.2.2 2 "priv" 0
      { State.empty with envs := [⟨none, [("pub", numV 7)]⟩] } rfl
